import Mathlib

/-!
Verification of the temporal-coupling core of the sendspin-rs client.

The development shallowly embeds the Rust sources:
  * `src/sync/clock.rs`        — clock synchronization (`ClockSync`)
  * `src/protocol/client.rs`   — binary-frame demultiplexer and handshake
  * `src/protocol/messages.rs` — the JSON message envelope and codec
  * `examples/player.rs`       — per-chunk deadline computation

Machine integers are modelled as `Nat`/`Int`; `i64`, `u32`, `u8` wire
fields are modelled as range-restricted subtypes where serde's decoders
perform range checks.  Instants (Rust `std::time::Instant`) are modelled
as microsecond counts (`Nat`); wall-clock readings (`SystemTime`) as
`Int` microseconds passed explicitly to the functions that sample them.
-/

set_option maxHeartbeats 1600000

namespace Sendspin

/-! ### JSON value model (serde_json)

serde_json's `Value` keeps integer and floating-point numbers apart;
finite IEEE-754 doubles round-trip exactly through serde_json's
shortest-representation printing and are modelled here by their exact
rational values. -/

/-- Number of a JSON document: integer or (finite) floating point. -/
inductive JNum where
  | int (i : Int)
  | float (q : Rat)
  deriving DecidableEq

/-- JSON value, as produced and consumed by serde_json. -/
inductive Json where
  | null
  | bool (b : Bool)
  | num (n : JNum)
  | str (s : String)
  | arr (elems : List Json)
  | obj (fields : List (String × Json))

/-- Whether a JSON value is `null` (serde treats `null` as an absent
`Option` field). -/
def Json.isNull : Json → Bool
  | .null => true
  | _ => false

@[simp] theorem Json.isNull_of_ne {j : Json} (h : j ≠ Json.null) : j.isNull = false := by
  cases j <;> simp_all [Json.isNull]

/-- Key lookup in a JSON object's field list (first match wins, as in
serde's map access). -/
def lookupKey : List (String × Json) → String → Option Json
  | [], _ => none
  | (k, v) :: rest, key => if k = key then some v else lookupKey rest key

@[simp] theorem lookupKey_nil (key : String) : lookupKey [] key = none := rfl

@[simp] theorem lookupKey_cons (k key : String) (v : Json) (rest : List (String × Json)) :
    lookupKey ((k, v) :: rest) key = if k = key then some v else lookupKey rest key := rfl

/-- Emit an optional struct field: serde's
`#[serde(skip_serializing_if = "Option::is_none")]` omits the key when
the field is `None`. -/
def optField (key : String) (o : Option α) (f : α → Json) (rest : List (String × Json)) :
    List (String × Json) :=
  match o with
  | none => rest
  | some v => (key, f v) :: rest

@[simp] theorem lookupKey_optField_of_ne (key k : String) (o : Option α) (f : α → Json)
    (rest : List (String × Json)) (h : ¬ k = key) :
    lookupKey (optField k o f rest) key = lookupKey rest key := by
  cases o <;> simp [optField, h]

@[simp] theorem lookupKey_optField_self (k : String) (o : Option α) (f : α → Json)
    (rest : List (String × Json)) (h : lookupKey rest k = none) :
    lookupKey (optField k o f rest) k = o.map f := by
  cases o <;> simp [optField, h]

/-- Decode an optional struct field: a missing key or an explicit `null`
denote the absent `Option`. -/
def getOpt (fields : List (String × Json)) (key : String) (d : Json → Option α) :
    Option (Option α) :=
  match lookupKey fields key with
  | none => some none
  | some j => if j.isNull then some none else (d j).map some

theorem getOpt_of_none (fields : List (String × Json)) (key : String) (d : Json → Option α)
    (h : lookupKey fields key = none) : getOpt fields key d = some none := by
  simp [getOpt, h]

theorem getOpt_eq_some (fields : List (String × Json)) (key : String) (d : Json → Option α)
    (o : Option α) (f : α → Json) (hl : lookupKey fields key = o.map f)
    (h : ∀ a, d (f a) = some a) (hn : ∀ a, (f a).isNull = false) :
    getOpt fields key d = some o := by
  cases o <;> simp [getOpt, hl, h, hn]

/-! ### Wire integers

Rust's `u32`, `u8`, `i64` as range-restricted subtypes; serde rejects
out-of-range JSON numbers when decoding into them. -/

abbrev U32 := {n : Nat // n < 4294967296}
abbrev U8 := {n : Nat // n < 256}
abbrev I64 := {i : Int // -9223372036854775808 ≤ i ∧ i < 9223372036854775808}

def encU32 (x : U32) : Json := .num (.int x.1)
def encU8 (x : U8) : Json := .num (.int x.1)
def encI64 (x : I64) : Json := .num (.int x.1)
def encF64 (q : Rat) : Json := .num (.float q)
def encStr (s : String) : Json := .str s
def encBool (b : Bool) : Json := .bool b

def decU32 : Json → Option U32
  | .num (.int i) =>
    if h : i.toNat < 4294967296 ∧ 0 ≤ i then some ⟨i.toNat, h.1⟩ else none
  | _ => none

def decU8 : Json → Option U8
  | .num (.int i) =>
    if h : i.toNat < 256 ∧ 0 ≤ i then some ⟨i.toNat, h.1⟩ else none
  | _ => none

def decI64 : Json → Option I64
  | .num (.int i) =>
    if h : -9223372036854775808 ≤ i ∧ i < 9223372036854775808 then some ⟨i, h⟩ else none
  | _ => none

def decF64 : Json → Option Rat
  | .num (.float q) => some q
  | .num (.int i) => some (i : Rat)
  | _ => none

def decStr : Json → Option String
  | .str s => some s
  | _ => none

def decBool : Json → Option Bool
  | .bool b => some b
  | _ => none

@[simp] theorem decU32_enc (x : U32) : decU32 (encU32 x) = some x := by
  obtain ⟨v, hv⟩ := x
  have h : (v : Int).toNat < 4294967296 ∧ (0 : Int) ≤ (v : Int) := by
    constructor <;> omega
  simp only [decU32, encU32, dif_pos h, Option.some.injEq]
  exact Subtype.ext (by simp)

@[simp] theorem decU8_enc (x : U8) : decU8 (encU8 x) = some x := by
  obtain ⟨v, hv⟩ := x
  have h : (v : Int).toNat < 256 ∧ (0 : Int) ≤ (v : Int) := by
    constructor <;> omega
  simp only [decU8, encU8, dif_pos h, Option.some.injEq]
  exact Subtype.ext (by simp)

@[simp] theorem decI64_enc (x : I64) : decI64 (encI64 x) = some x := by
  simp [decI64, encI64, dif_pos x.2]

@[simp] theorem decF64_enc (q : Rat) : decF64 (encF64 q) = some q := rfl

@[simp] theorem decStr_enc (s : String) : decStr (encStr s) = some s := rfl

@[simp] theorem decBool_enc (b : Bool) : decBool (encBool b) = some b := rfl

@[simp] theorem decStr_str (s : String) : decStr (.str s) = some s := rfl

@[simp] theorem decBool_bool (b : Bool) : decBool (.bool b) = some b := rfl

@[simp] theorem encU32_isNull (x : U32) : (encU32 x).isNull = false := rfl
@[simp] theorem encU8_isNull (x : U8) : (encU8 x).isNull = false := rfl
@[simp] theorem encI64_isNull (x : I64) : (encI64 x).isNull = false := rfl
@[simp] theorem encF64_isNull (q : Rat) : (encF64 q).isNull = false := rfl
@[simp] theorem encStr_isNull (s : String) : (encStr s).isNull = false := rfl
@[simp] theorem encBool_isNull (b : Bool) : (encBool b).isNull = false := rfl
@[simp] theorem str_isNull (s : String) : (Json.str s).isNull = false := rfl
@[simp] theorem bool_isNull (b : Bool) : (Json.bool b).isNull = false := rfl
@[simp] theorem arr_isNull (xs : List Json) : (Json.arr xs).isNull = false := rfl
@[simp] theorem obj_isNull (fs : List (String × Json)) : (Json.obj fs).isNull = false := rfl

/-- Elementwise decoding of a JSON list, failing fast as serde sequences
do. -/
def decodeList (d : Json → Option α) : List Json → Option (List α)
  | [] => some []
  | j :: rest => do
      let a ← d j
      let as ← decodeList d rest
      pure (a :: as)

/-- Decode a JSON array elementwise. -/
def decArr (d : Json → Option α) : Json → Option (List α)
  | .arr js => decodeList d js
  | _ => none

theorem decodeList_map_of_inverse (d : Json → Option α) (f : α → Json)
    (h : ∀ a, d (f a) = some a) (xs : List α) : decodeList d (xs.map f) = some xs := by
  induction xs with
  | nil => rfl
  | cons a t ih => simp [decodeList, h, ih]

@[simp] theorem decArr_map (d : Json → Option α) (f : α → Json)
    (h : ∀ a, d (f a) = some a) (xs : List α) :
    decArr d (.arr (xs.map f)) = some xs := by
  simp [decArr, decodeList_map_of_inverse d f h]

@[simp] theorem decArr_str (xs : List String) :
    decArr decStr (.arr (xs.map Json.str)) = some xs := by
  exact decArr_map decStr Json.str (fun _ => rfl) xs

/-! ### Protocol message data model (`src/protocol/messages.rs`)

Each Rust struct/enum is mirrored with its serde encoding (declaration
order, `skip_serializing_if` omission, `rename` keys) and decoding. -/

/-- Connection reason enum (`#[serde(rename_all = "lowercase")]`). -/
inductive ConnectionReason where
  | discovery
  | playback
  deriving DecidableEq

def encodeConnectionReason : ConnectionReason → Json
  | .discovery => .str "discovery"
  | .playback => .str "playback"

def decodeConnectionReason : Json → Option ConnectionReason
  | .str "discovery" => some .discovery
  | .str "playback" => some .playback
  | _ => none

@[simp] theorem decodeConnectionReason_enc (r : ConnectionReason) :
    decodeConnectionReason (encodeConnectionReason r) = some r := by
  cases r <;> rfl

/-- Player synchronization state (`rename_all = "lowercase"`). -/
inductive PlayerSyncState where
  | synchronized
  | error
  deriving DecidableEq

def encodePlayerSyncState : PlayerSyncState → Json
  | .synchronized => .str "synchronized"
  | .error => .str "error"

def decodePlayerSyncState : Json → Option PlayerSyncState
  | .str "synchronized" => some .synchronized
  | .str "error" => some .error
  | _ => none

@[simp] theorem decodePlayerSyncState_enc (r : PlayerSyncState) :
    decodePlayerSyncState (encodePlayerSyncState r) = some r := by
  cases r <;> rfl

/-- Repeat mode (`rename_all = "snake_case"`). -/
inductive RepeatMode where
  | off
  | one
  | all
  deriving DecidableEq

def encodeRepeatMode : RepeatMode → Json
  | .off => .str "off"
  | .one => .str "one"
  | .all => .str "all"

def decodeRepeatMode : Json → Option RepeatMode
  | .str "off" => some .off
  | .str "one" => some .one
  | .str "all" => some .all
  | _ => none

@[simp] theorem decodeRepeatMode_enc (r : RepeatMode) :
    decodeRepeatMode (encodeRepeatMode r) = some r := by
  cases r <;> rfl

/-- Group playback state (`rename_all = "lowercase"`). -/
inductive PlaybackState where
  | playing
  | paused
  | stopped
  deriving DecidableEq

def encodePlaybackState : PlaybackState → Json
  | .playing => .str "playing"
  | .paused => .str "paused"
  | .stopped => .str "stopped"

def decodePlaybackState : Json → Option PlaybackState
  | .str "playing" => some .playing
  | .str "paused" => some .paused
  | .str "stopped" => some .stopped
  | _ => none

@[simp] theorem decodePlaybackState_enc (r : PlaybackState) :
    decodePlaybackState (encodePlaybackState r) = some r := by
  cases r <;> rfl

/-- Goodbye reason (`rename_all = "snake_case"`). -/
inductive GoodbyeReason where
  | anotherServer
  | shutdown
  | restart
  | userRequest
  deriving DecidableEq

def encodeGoodbyeReason : GoodbyeReason → Json
  | .anotherServer => .str "another_server"
  | .shutdown => .str "shutdown"
  | .restart => .str "restart"
  | .userRequest => .str "user_request"

def decodeGoodbyeReason : Json → Option GoodbyeReason
  | .str "another_server" => some .anotherServer
  | .str "shutdown" => some .shutdown
  | .str "restart" => some .restart
  | .str "user_request" => some .userRequest
  | _ => none

@[simp] theorem decodeGoodbyeReason_enc (r : GoodbyeReason) :
    decodeGoodbyeReason (encodeGoodbyeReason r) = some r := by
  cases r <;> rfl

/-- Device information (all fields optional). -/
structure DeviceInfo where
  product_name : Option String
  manufacturer : Option String
  software_version : Option String
  deriving DecidableEq

def encodeDeviceInfo (p : DeviceInfo) : Json :=
  .obj (optField "product_name" p.product_name encStr
       (optField "manufacturer" p.manufacturer encStr
       (optField "software_version" p.software_version encStr [])))

def decodeDeviceInfo : Json → Option DeviceInfo
  | .obj fs => do
      let product_name ← getOpt fs "product_name" decStr
      let manufacturer ← getOpt fs "manufacturer" decStr
      let software_version ← getOpt fs "software_version" decStr
      pure ⟨product_name, manufacturer, software_version⟩
  | _ => none

@[simp] theorem encodeDeviceInfo_isNull (p : DeviceInfo) :
    (encodeDeviceInfo p).isNull = false := rfl

@[simp] theorem decodeDeviceInfo_enc (p : DeviceInfo) :
    decodeDeviceInfo (encodeDeviceInfo p) = some p := by
  obtain ⟨pn, mf, sv⟩ := p
  cases pn <;> cases mf <;> cases sv <;>
    simp [encodeDeviceInfo, decodeDeviceInfo, getOpt, optField, encStr, decStr]

/-- Audio format specification. -/
structure AudioFormatSpec where
  codec : String
  channels : U8
  sample_rate : U32
  bit_depth : U8
  deriving DecidableEq

def encodeAudioFormatSpec (p : AudioFormatSpec) : Json :=
  .obj [("codec", encStr p.codec),
        ("channels", encU8 p.channels),
        ("sample_rate", encU32 p.sample_rate),
        ("bit_depth", encU8 p.bit_depth)]

def decodeAudioFormatSpec : Json → Option AudioFormatSpec
  | .obj fs => do
      let codec ← (lookupKey fs "codec").bind decStr
      let channels ← (lookupKey fs "channels").bind decU8
      let sample_rate ← (lookupKey fs "sample_rate").bind decU32
      let bit_depth ← (lookupKey fs "bit_depth").bind decU8
      pure ⟨codec, channels, sample_rate, bit_depth⟩
  | _ => none

@[simp] theorem decodeAudioFormatSpec_enc (p : AudioFormatSpec) :
    decodeAudioFormatSpec (encodeAudioFormatSpec p) = some p := by
  obtain ⟨c, ch, sr, bd⟩ := p
  simp [encodeAudioFormatSpec, decodeAudioFormatSpec]

/-- Player capabilities block. -/
structure PlayerV1Support where
  supported_formats : List AudioFormatSpec
  buffer_capacity : U32
  supported_commands : List String
  deriving DecidableEq

def encodePlayerV1Support (p : PlayerV1Support) : Json :=
  .obj [("supported_formats", .arr (p.supported_formats.map encodeAudioFormatSpec)),
        ("buffer_capacity", encU32 p.buffer_capacity),
        ("supported_commands", .arr (p.supported_commands.map Json.str))]

def decodePlayerV1Support : Json → Option PlayerV1Support
  | .obj fs => do
      let supported_formats ← (lookupKey fs "supported_formats").bind (decArr decodeAudioFormatSpec)
      let buffer_capacity ← (lookupKey fs "buffer_capacity").bind decU32
      let supported_commands ← (lookupKey fs "supported_commands").bind (decArr decStr)
      pure ⟨supported_formats, buffer_capacity, supported_commands⟩
  | _ => none

@[simp] theorem encodePlayerV1Support_isNull (p : PlayerV1Support) :
    (encodePlayerV1Support p).isNull = false := rfl

@[simp] theorem decodePlayerV1Support_enc (p : PlayerV1Support) :
    decodePlayerV1Support (encodePlayerV1Support p) = some p := by
  obtain ⟨sf, bc, sc⟩ := p
  simp [encodePlayerV1Support, decodePlayerV1Support,
    decArr_map decodeAudioFormatSpec encodeAudioFormatSpec (fun _ => by simp)]

/-- Artwork capabilities block. -/
structure ArtworkV1Support where
  channels : List U8
  deriving DecidableEq

def encodeArtworkV1Support (p : ArtworkV1Support) : Json :=
  .obj [("channels", .arr (p.channels.map encU8))]

def decodeArtworkV1Support : Json → Option ArtworkV1Support
  | .obj fs => do
      let channels ← (lookupKey fs "channels").bind (decArr decU8)
      pure ⟨channels⟩
  | _ => none

@[simp] theorem encodeArtworkV1Support_isNull (p : ArtworkV1Support) :
    (encodeArtworkV1Support p).isNull = false := rfl

@[simp] theorem decodeArtworkV1Support_enc (p : ArtworkV1Support) :
    decodeArtworkV1Support (encodeArtworkV1Support p) = some p := by
  obtain ⟨ch⟩ := p
  simp [encodeArtworkV1Support, decodeArtworkV1Support,
    decArr_map decU8 encU8 (fun _ => by simp)]

/-- Visualizer capabilities block. -/
structure VisualizerV1Support where
  buffer_capacity : U32
  deriving DecidableEq

def encodeVisualizerV1Support (p : VisualizerV1Support) : Json :=
  .obj [("buffer_capacity", encU32 p.buffer_capacity)]

def decodeVisualizerV1Support : Json → Option VisualizerV1Support
  | .obj fs => do
      let buffer_capacity ← (lookupKey fs "buffer_capacity").bind decU32
      pure ⟨buffer_capacity⟩
  | _ => none

@[simp] theorem encodeVisualizerV1Support_isNull (p : VisualizerV1Support) :
    (encodeVisualizerV1Support p).isNull = false := rfl

@[simp] theorem decodeVisualizerV1Support_enc (p : VisualizerV1Support) :
    decodeVisualizerV1Support (encodeVisualizerV1Support p) = some p := by
  obtain ⟨bc⟩ := p
  simp [encodeVisualizerV1Support, decodeVisualizerV1Support]

/-- Client hello message payload. -/
structure ClientHello where
  client_id : String
  name : String
  version : U32
  supported_roles : List String
  device_info : Option DeviceInfo
  player_v1_support : Option PlayerV1Support
  artwork_v1_support : Option ArtworkV1Support
  visualizer_v1_support : Option VisualizerV1Support
  deriving DecidableEq

def encodeClientHello (p : ClientHello) : Json :=
  .obj (("client_id", encStr p.client_id) ::
        ("name", encStr p.name) ::
        ("version", encU32 p.version) ::
        ("supported_roles", .arr (p.supported_roles.map Json.str)) ::
        optField "device_info" p.device_info encodeDeviceInfo
       (optField "player@v1_support" p.player_v1_support encodePlayerV1Support
       (optField "artwork@v1_support" p.artwork_v1_support encodeArtworkV1Support
       (optField "visualizer@v1_support" p.visualizer_v1_support encodeVisualizerV1Support []))))

def decodeClientHello : Json → Option ClientHello
  | .obj fs => do
      let client_id ← (lookupKey fs "client_id").bind decStr
      let name ← (lookupKey fs "name").bind decStr
      let version ← (lookupKey fs "version").bind decU32
      let supported_roles ← (lookupKey fs "supported_roles").bind (decArr decStr)
      let device_info ← getOpt fs "device_info" decodeDeviceInfo
      let player_v1_support ← getOpt fs "player@v1_support" decodePlayerV1Support
      let artwork_v1_support ← getOpt fs "artwork@v1_support" decodeArtworkV1Support
      let visualizer_v1_support ← getOpt fs "visualizer@v1_support" decodeVisualizerV1Support
      pure ⟨client_id, name, version, supported_roles, device_info,
            player_v1_support, artwork_v1_support, visualizer_v1_support⟩
  | _ => none

@[simp] theorem decodeClientHello_enc (p : ClientHello) :
    decodeClientHello (encodeClientHello p) = some p := by
  obtain ⟨ci, nm, vr, sr, di, pv, av, vv⟩ := p
  cases di <;> cases pv <;> cases av <;> cases vv <;>
    simp [encodeClientHello, decodeClientHello, getOpt, optField, encStr, decStr]

/-- Server hello message payload. -/
structure ServerHello where
  server_id : String
  name : String
  version : U32
  active_roles : List String
  connection_reason : ConnectionReason
  deriving DecidableEq

def encodeServerHello (p : ServerHello) : Json :=
  .obj [("server_id", encStr p.server_id),
        ("name", encStr p.name),
        ("version", encU32 p.version),
        ("active_roles", .arr (p.active_roles.map Json.str)),
        ("connection_reason", encodeConnectionReason p.connection_reason)]

def decodeServerHello : Json → Option ServerHello
  | .obj fs => do
      let server_id ← (lookupKey fs "server_id").bind decStr
      let name ← (lookupKey fs "name").bind decStr
      let version ← (lookupKey fs "version").bind decU32
      let active_roles ← (lookupKey fs "active_roles").bind (decArr decStr)
      let connection_reason ← (lookupKey fs "connection_reason").bind decodeConnectionReason
      pure ⟨server_id, name, version, active_roles, connection_reason⟩
  | _ => none

@[simp] theorem decodeServerHello_enc (p : ServerHello) :
    decodeServerHello (encodeServerHello p) = some p := by
  obtain ⟨si, nm, vr, ar, cr⟩ := p
  simp [encodeServerHello, decodeServerHello]

/-- Client time-sync request payload. -/
structure ClientTime where
  client_transmitted : I64
  deriving DecidableEq

def encodeClientTime (p : ClientTime) : Json :=
  .obj [("client_transmitted", encI64 p.client_transmitted)]

def decodeClientTime : Json → Option ClientTime
  | .obj fs => do
      let client_transmitted ← (lookupKey fs "client_transmitted").bind decI64
      pure ⟨client_transmitted⟩
  | _ => none

@[simp] theorem decodeClientTime_enc (p : ClientTime) :
    decodeClientTime (encodeClientTime p) = some p := by
  obtain ⟨ct⟩ := p
  simp [encodeClientTime, decodeClientTime]

/-- Server time-sync response payload. -/
structure ServerTime where
  client_transmitted : I64
  server_received : I64
  server_transmitted : I64
  deriving DecidableEq

def encodeServerTime (p : ServerTime) : Json :=
  .obj [("client_transmitted", encI64 p.client_transmitted),
        ("server_received", encI64 p.server_received),
        ("server_transmitted", encI64 p.server_transmitted)]

def decodeServerTime : Json → Option ServerTime
  | .obj fs => do
      let client_transmitted ← (lookupKey fs "client_transmitted").bind decI64
      let server_received ← (lookupKey fs "server_received").bind decI64
      let server_transmitted ← (lookupKey fs "server_transmitted").bind decI64
      pure ⟨client_transmitted, server_received, server_transmitted⟩
  | _ => none

@[simp] theorem decodeServerTime_enc (p : ServerTime) :
    decodeServerTime (encodeServerTime p) = some p := by
  obtain ⟨ct, srr, st⟩ := p
  simp [encodeServerTime, decodeServerTime]

/-- Player state block inside `client/state`. -/
structure PlayerState where
  state : PlayerSyncState
  volume : Option U8
  muted : Option Bool
  deriving DecidableEq

def encodePlayerState (p : PlayerState) : Json :=
  .obj (("state", encodePlayerSyncState p.state) ::
        optField "volume" p.volume encU8
       (optField "muted" p.muted encBool []))

def decodePlayerState : Json → Option PlayerState
  | .obj fs => do
      let state ← (lookupKey fs "state").bind decodePlayerSyncState
      let volume ← getOpt fs "volume" decU8
      let muted ← getOpt fs "muted" decBool
      pure ⟨state, volume, muted⟩
  | _ => none

@[simp] theorem encodePlayerState_isNull (p : PlayerState) :
    (encodePlayerState p).isNull = false := rfl

@[simp] theorem decodePlayerState_enc (p : PlayerState) :
    decodePlayerState (encodePlayerState p) = some p := by
  obtain ⟨st, vo, mu⟩ := p
  cases vo <;> cases mu <;>
    simp [encodePlayerState, decodePlayerState, getOpt, optField]

/-- Client state update payload. -/
structure ClientState where
  player : Option PlayerState
  deriving DecidableEq

def encodeClientState (p : ClientState) : Json :=
  .obj (optField "player" p.player encodePlayerState [])

def decodeClientState : Json → Option ClientState
  | .obj fs => do
      let player ← getOpt fs "player" decodePlayerState
      pure ⟨player⟩
  | _ => none

@[simp] theorem decodeClientState_enc (p : ClientState) :
    decodeClientState (encodeClientState p) = some p := by
  obtain ⟨pl⟩ := p
  cases pl <;> simp [encodeClientState, decodeClientState, getOpt, optField]

/-- Track progress block. -/
structure TrackProgress where
  position : I64
  duration : I64
  playback_speed : Option Rat
  deriving DecidableEq

def encodeTrackProgress (p : TrackProgress) : Json :=
  .obj (("position", encI64 p.position) ::
        ("duration", encI64 p.duration) ::
        optField "playback_speed" p.playback_speed encF64 [])

def decodeTrackProgress : Json → Option TrackProgress
  | .obj fs => do
      let position ← (lookupKey fs "position").bind decI64
      let duration ← (lookupKey fs "duration").bind decI64
      let playback_speed ← getOpt fs "playback_speed" decF64
      pure ⟨position, duration, playback_speed⟩
  | _ => none

@[simp] theorem encodeTrackProgress_isNull (p : TrackProgress) :
    (encodeTrackProgress p).isNull = false := rfl

@[simp] theorem decodeTrackProgress_enc (p : TrackProgress) :
    decodeTrackProgress (encodeTrackProgress p) = some p := by
  obtain ⟨ps, du, sp⟩ := p
  cases sp <;> simp [encodeTrackProgress, decodeTrackProgress, getOpt, optField]

@[simp] theorem encodeRepeatMode_isNull (r : RepeatMode) :
    (encodeRepeatMode r).isNull = false := by cases r <;> rfl

/-- Metadata state block inside `server/state`. -/
structure MetadataState where
  timestamp : I64
  title : Option String
  artist : Option String
  album : Option String
  artwork_url : Option String
  year : Option U32
  track : Option String
  progress : Option TrackProgress
  repeat_mode : Option RepeatMode
  shuffle : Option Bool
  deriving DecidableEq

def metaFields (p : MetadataState) : List (String × Json) :=
  ("timestamp", encI64 p.timestamp) ::
  optField "title" p.title encStr
 (optField "artist" p.artist encStr
 (optField "album" p.album encStr
 (optField "artwork_url" p.artwork_url encStr
 (optField "year" p.year encU32
 (optField "track" p.track encStr
 (optField "progress" p.progress encodeTrackProgress
 (optField "repeat" p.repeat_mode encodeRepeatMode
 (optField "shuffle" p.shuffle encBool []))))))))

def encodeMetadataState (p : MetadataState) : Json :=
  .obj (metaFields p)

def decodeMetadataState : Json → Option MetadataState
  | .obj fs => do
      let timestamp ← (lookupKey fs "timestamp").bind decI64
      let title ← getOpt fs "title" decStr
      let artist ← getOpt fs "artist" decStr
      let album ← getOpt fs "album" decStr
      let artwork_url ← getOpt fs "artwork_url" decStr
      let year ← getOpt fs "year" decU32
      let track ← getOpt fs "track" decStr
      let progress ← getOpt fs "progress" decodeTrackProgress
      let repeat_mode ← getOpt fs "repeat" decodeRepeatMode
      let shuffle ← getOpt fs "shuffle" decBool
      pure ⟨timestamp, title, artist, album, artwork_url, year, track,
            progress, repeat_mode, shuffle⟩
  | _ => none

@[simp] theorem encodeMetadataState_isNull (p : MetadataState) :
    (encodeMetadataState p).isNull = false := rfl

theorem metaFields_timestamp (p : MetadataState) :
    lookupKey (metaFields p) "timestamp" = some (encI64 p.timestamp) := by
  simp [metaFields]

theorem metaFields_title (p : MetadataState) :
    getOpt (metaFields p) "title" decStr = some p.title :=
  getOpt_eq_some _ _ _ _ encStr (by simp [metaFields]) (by simp) (by simp)

theorem metaFields_artist (p : MetadataState) :
    getOpt (metaFields p) "artist" decStr = some p.artist :=
  getOpt_eq_some _ _ _ _ encStr (by simp [metaFields]) (by simp) (by simp)

theorem metaFields_album (p : MetadataState) :
    getOpt (metaFields p) "album" decStr = some p.album :=
  getOpt_eq_some _ _ _ _ encStr (by simp [metaFields]) (by simp) (by simp)

theorem metaFields_artwork_url (p : MetadataState) :
    getOpt (metaFields p) "artwork_url" decStr = some p.artwork_url :=
  getOpt_eq_some _ _ _ _ encStr (by simp [metaFields]) (by simp) (by simp)

theorem metaFields_year (p : MetadataState) :
    getOpt (metaFields p) "year" decU32 = some p.year :=
  getOpt_eq_some _ _ _ _ encU32 (by simp [metaFields]) (by simp) (by simp)

theorem metaFields_track (p : MetadataState) :
    getOpt (metaFields p) "track" decStr = some p.track :=
  getOpt_eq_some _ _ _ _ encStr (by simp [metaFields]) (by simp) (by simp)

theorem metaFields_progress (p : MetadataState) :
    getOpt (metaFields p) "progress" decodeTrackProgress = some p.progress :=
  getOpt_eq_some _ _ _ _ encodeTrackProgress (by simp [metaFields]) (by simp) (by simp)

theorem metaFields_repeat (p : MetadataState) :
    getOpt (metaFields p) "repeat" decodeRepeatMode = some p.repeat_mode :=
  getOpt_eq_some _ _ _ _ encodeRepeatMode (by simp [metaFields]) (by simp) (by simp)

theorem metaFields_shuffle (p : MetadataState) :
    getOpt (metaFields p) "shuffle" decBool = some p.shuffle :=
  getOpt_eq_some _ _ _ _ encBool (by simp [metaFields]) (by simp) (by simp)

@[simp] theorem decodeMetadataState_enc (p : MetadataState) :
    decodeMetadataState (encodeMetadataState p) = some p := by
  simp [encodeMetadataState, decodeMetadataState, metaFields_timestamp,
    metaFields_title, metaFields_artist, metaFields_album, metaFields_artwork_url,
    metaFields_year, metaFields_track, metaFields_progress, metaFields_repeat,
    metaFields_shuffle]

/-- Controller state block inside `server/state`. -/
structure ControllerState where
  supported_commands : List String
  volume : U8
  muted : Bool
  deriving DecidableEq

def encodeControllerState (p : ControllerState) : Json :=
  .obj [("supported_commands", .arr (p.supported_commands.map Json.str)),
        ("volume", encU8 p.volume),
        ("muted", encBool p.muted)]

def decodeControllerState : Json → Option ControllerState
  | .obj fs => do
      let supported_commands ← (lookupKey fs "supported_commands").bind (decArr decStr)
      let volume ← (lookupKey fs "volume").bind decU8
      let muted ← (lookupKey fs "muted").bind decBool
      pure ⟨supported_commands, volume, muted⟩
  | _ => none

@[simp] theorem encodeControllerState_isNull (p : ControllerState) :
    (encodeControllerState p).isNull = false := rfl

@[simp] theorem decodeControllerState_enc (p : ControllerState) :
    decodeControllerState (encodeControllerState p) = some p := by
  obtain ⟨sc, vo, mu⟩ := p
  simp [encodeControllerState, decodeControllerState]

/-- Server state update payload. -/
structure ServerState where
  metadata : Option MetadataState
  controller : Option ControllerState
  deriving DecidableEq

def encodeServerState (p : ServerState) : Json :=
  .obj (optField "metadata" p.metadata encodeMetadataState
       (optField "controller" p.controller encodeControllerState []))

def decodeServerState : Json → Option ServerState
  | .obj fs => do
      let metadata ← getOpt fs "metadata" decodeMetadataState
      let controller ← getOpt fs "controller" decodeControllerState
      pure ⟨metadata, controller⟩
  | _ => none

@[simp] theorem decodeServerState_enc (p : ServerState) :
    decodeServerState (encodeServerState p) = some p := by
  obtain ⟨md, ct⟩ := p
  cases md <;> cases ct <;>
    simp [encodeServerState, decodeServerState, getOpt, optField]

/-- Player command block inside `server/command`. -/
structure PlayerCommand where
  command : String
  volume : Option U8
  mute : Option Bool
  deriving DecidableEq

def encodePlayerCommand (p : PlayerCommand) : Json :=
  .obj (("command", encStr p.command) ::
        optField "volume" p.volume encU8
       (optField "mute" p.mute encBool []))

def decodePlayerCommand : Json → Option PlayerCommand
  | .obj fs => do
      let command ← (lookupKey fs "command").bind decStr
      let volume ← getOpt fs "volume" decU8
      let mute ← getOpt fs "mute" decBool
      pure ⟨command, volume, mute⟩
  | _ => none

@[simp] theorem encodePlayerCommand_isNull (p : PlayerCommand) :
    (encodePlayerCommand p).isNull = false := rfl

@[simp] theorem decodePlayerCommand_enc (p : PlayerCommand) :
    decodePlayerCommand (encodePlayerCommand p) = some p := by
  obtain ⟨cm, vo, mu⟩ := p
  cases vo <;> cases mu <;>
    simp [encodePlayerCommand, decodePlayerCommand, getOpt, optField]

/-- Server command payload. -/
structure ServerCommand where
  player : Option PlayerCommand
  deriving DecidableEq

def encodeServerCommand (p : ServerCommand) : Json :=
  .obj (optField "player" p.player encodePlayerCommand [])

def decodeServerCommand : Json → Option ServerCommand
  | .obj fs => do
      let player ← getOpt fs "player" decodePlayerCommand
      pure ⟨player⟩
  | _ => none

@[simp] theorem decodeServerCommand_enc (p : ServerCommand) :
    decodeServerCommand (encodeServerCommand p) = some p := by
  obtain ⟨pl⟩ := p
  cases pl <;> simp [encodeServerCommand, decodeServerCommand, getOpt, optField]

/-- Controller command block inside `client/command`. -/
structure ControllerCommand where
  command : String
  volume : Option U8
  mute : Option Bool
  deriving DecidableEq

def encodeControllerCommand (p : ControllerCommand) : Json :=
  .obj (("command", encStr p.command) ::
        optField "volume" p.volume encU8
       (optField "mute" p.mute encBool []))

def decodeControllerCommand : Json → Option ControllerCommand
  | .obj fs => do
      let command ← (lookupKey fs "command").bind decStr
      let volume ← getOpt fs "volume" decU8
      let mute ← getOpt fs "mute" decBool
      pure ⟨command, volume, mute⟩
  | _ => none

@[simp] theorem encodeControllerCommand_isNull (p : ControllerCommand) :
    (encodeControllerCommand p).isNull = false := rfl

@[simp] theorem decodeControllerCommand_enc (p : ControllerCommand) :
    decodeControllerCommand (encodeControllerCommand p) = some p := by
  obtain ⟨cm, vo, mu⟩ := p
  cases vo <;> cases mu <;>
    simp [encodeControllerCommand, decodeControllerCommand, getOpt, optField]

/-- Client command payload. -/
structure ClientCommand where
  controller : Option ControllerCommand
  deriving DecidableEq

def encodeClientCommand (p : ClientCommand) : Json :=
  .obj (optField "controller" p.controller encodeControllerCommand [])

def decodeClientCommand : Json → Option ClientCommand
  | .obj fs => do
      let controller ← getOpt fs "controller" decodeControllerCommand
      pure ⟨controller⟩
  | _ => none

@[simp] theorem decodeClientCommand_enc (p : ClientCommand) :
    decodeClientCommand (encodeClientCommand p) = some p := by
  obtain ⟨ct⟩ := p
  cases ct <;> simp [encodeClientCommand, decodeClientCommand, getOpt, optField]

/-- Player stream configuration inside `stream/start`. -/
structure StreamPlayerConfig where
  codec : String
  sample_rate : U32
  channels : U8
  bit_depth : U8
  codec_header : Option String
  deriving DecidableEq

def encodeStreamPlayerConfig (p : StreamPlayerConfig) : Json :=
  .obj (("codec", encStr p.codec) ::
        ("sample_rate", encU32 p.sample_rate) ::
        ("channels", encU8 p.channels) ::
        ("bit_depth", encU8 p.bit_depth) ::
        optField "codec_header" p.codec_header encStr [])

def decodeStreamPlayerConfig : Json → Option StreamPlayerConfig
  | .obj fs => do
      let codec ← (lookupKey fs "codec").bind decStr
      let sample_rate ← (lookupKey fs "sample_rate").bind decU32
      let channels ← (lookupKey fs "channels").bind decU8
      let bit_depth ← (lookupKey fs "bit_depth").bind decU8
      let codec_header ← getOpt fs "codec_header" decStr
      pure ⟨codec, sample_rate, channels, bit_depth, codec_header⟩
  | _ => none

@[simp] theorem encodeStreamPlayerConfig_isNull (p : StreamPlayerConfig) :
    (encodeStreamPlayerConfig p).isNull = false := rfl

@[simp] theorem decodeStreamPlayerConfig_enc (p : StreamPlayerConfig) :
    decodeStreamPlayerConfig (encodeStreamPlayerConfig p) = some p := by
  obtain ⟨cd, sr, ch, bd, hd⟩ := p
  cases hd <;>
    simp [encodeStreamPlayerConfig, decodeStreamPlayerConfig, getOpt, optField]

/-- Artwork stream configuration inside `stream/start`. -/
structure StreamArtworkConfig where
  channels : List U8
  deriving DecidableEq

def encodeStreamArtworkConfig (p : StreamArtworkConfig) : Json :=
  .obj [("channels", .arr (p.channels.map encU8))]

def decodeStreamArtworkConfig : Json → Option StreamArtworkConfig
  | .obj fs => do
      let channels ← (lookupKey fs "channels").bind (decArr decU8)
      pure ⟨channels⟩
  | _ => none

@[simp] theorem encodeStreamArtworkConfig_isNull (p : StreamArtworkConfig) :
    (encodeStreamArtworkConfig p).isNull = false := rfl

@[simp] theorem decodeStreamArtworkConfig_enc (p : StreamArtworkConfig) :
    decodeStreamArtworkConfig (encodeStreamArtworkConfig p) = some p := by
  obtain ⟨ch⟩ := p
  simp [encodeStreamArtworkConfig, decodeStreamArtworkConfig,
    decArr_map decU8 encU8 (fun _ => by simp)]

/-- Visualizer stream configuration inside `stream/start` (empty struct). -/
structure StreamVisualizerConfig where
  deriving DecidableEq

def encodeStreamVisualizerConfig (_ : StreamVisualizerConfig) : Json := .obj []

def decodeStreamVisualizerConfig : Json → Option StreamVisualizerConfig
  | .obj _ => some ⟨⟩
  | _ => none

@[simp] theorem encodeStreamVisualizerConfig_isNull (p : StreamVisualizerConfig) :
    (encodeStreamVisualizerConfig p).isNull = false := rfl

@[simp] theorem decodeStreamVisualizerConfig_enc (p : StreamVisualizerConfig) :
    decodeStreamVisualizerConfig (encodeStreamVisualizerConfig p) = some p := rfl

/-- Stream start payload. -/
structure StreamStart where
  player : Option StreamPlayerConfig
  artwork : Option StreamArtworkConfig
  visualizer : Option StreamVisualizerConfig
  deriving DecidableEq

def encodeStreamStart (p : StreamStart) : Json :=
  .obj (optField "player" p.player encodeStreamPlayerConfig
       (optField "artwork" p.artwork encodeStreamArtworkConfig
       (optField "visualizer" p.visualizer encodeStreamVisualizerConfig [])))

def decodeStreamStart : Json → Option StreamStart
  | .obj fs => do
      let player ← getOpt fs "player" decodeStreamPlayerConfig
      let artwork ← getOpt fs "artwork" decodeStreamArtworkConfig
      let visualizer ← getOpt fs "visualizer" decodeStreamVisualizerConfig
      pure ⟨player, artwork, visualizer⟩
  | _ => none

@[simp] theorem decodeStreamStart_enc (p : StreamStart) :
    decodeStreamStart (encodeStreamStart p) = some p := by
  obtain ⟨pl, aw, vz⟩ := p
  cases pl <;> cases aw <;> cases vz <;>
    simp [encodeStreamStart, decodeStreamStart, getOpt, optField]

/-- Stream end payload. -/
structure StreamEnd where
  roles : Option (List String)
  deriving DecidableEq

def encodeStreamEnd (p : StreamEnd) : Json :=
  .obj (optField "roles" p.roles (fun xs => .arr (xs.map Json.str)) [])

def decodeStreamEnd : Json → Option StreamEnd
  | .obj fs => do
      let roles ← getOpt fs "roles" (decArr decStr)
      pure ⟨roles⟩
  | _ => none

@[simp] theorem decodeStreamEnd_enc (p : StreamEnd) :
    decodeStreamEnd (encodeStreamEnd p) = some p := by
  obtain ⟨rs⟩ := p
  cases rs <;> simp [encodeStreamEnd, decodeStreamEnd, getOpt, optField]

/-- Stream clear payload. -/
structure StreamClear where
  roles : Option (List String)
  deriving DecidableEq

def encodeStreamClear (p : StreamClear) : Json :=
  .obj (optField "roles" p.roles (fun xs => .arr (xs.map Json.str)) [])

def decodeStreamClear : Json → Option StreamClear
  | .obj fs => do
      let roles ← getOpt fs "roles" (decArr decStr)
      pure ⟨roles⟩
  | _ => none

@[simp] theorem decodeStreamClear_enc (p : StreamClear) :
    decodeStreamClear (encodeStreamClear p) = some p := by
  obtain ⟨rs⟩ := p
  cases rs <;> simp [encodeStreamClear, decodeStreamClear, getOpt, optField]

/-- Player format request inside `stream/request-format`. -/
structure PlayerFormatRequest where
  codec : Option String
  channels : Option U8
  sample_rate : Option U32
  bit_depth : Option U8
  deriving DecidableEq

def encodePlayerFormatRequest (p : PlayerFormatRequest) : Json :=
  .obj (optField "codec" p.codec encStr
       (optField "channels" p.channels encU8
       (optField "sample_rate" p.sample_rate encU32
       (optField "bit_depth" p.bit_depth encU8 []))))

def decodePlayerFormatRequest : Json → Option PlayerFormatRequest
  | .obj fs => do
      let codec ← getOpt fs "codec" decStr
      let channels ← getOpt fs "channels" decU8
      let sample_rate ← getOpt fs "sample_rate" decU32
      let bit_depth ← getOpt fs "bit_depth" decU8
      pure ⟨codec, channels, sample_rate, bit_depth⟩
  | _ => none

@[simp] theorem encodePlayerFormatRequest_isNull (p : PlayerFormatRequest) :
    (encodePlayerFormatRequest p).isNull = false := rfl

@[simp] theorem decodePlayerFormatRequest_enc (p : PlayerFormatRequest) :
    decodePlayerFormatRequest (encodePlayerFormatRequest p) = some p := by
  obtain ⟨cd, ch, sr, bd⟩ := p
  cases cd <;> cases ch <;> cases sr <;> cases bd <;>
    simp [encodePlayerFormatRequest, decodePlayerFormatRequest, getOpt, optField]

/-- Artwork format request inside `stream/request-format`. -/
structure ArtworkFormatRequest where
  channel : U8
  source : Option String
  format : Option String
  media_width : Option U32
  media_height : Option U32
  deriving DecidableEq

def encodeArtworkFormatRequest (p : ArtworkFormatRequest) : Json :=
  .obj (("channel", encU8 p.channel) ::
        optField "source" p.source encStr
       (optField "format" p.format encStr
       (optField "media_width" p.media_width encU32
       (optField "media_height" p.media_height encU32 []))))

def decodeArtworkFormatRequest : Json → Option ArtworkFormatRequest
  | .obj fs => do
      let channel ← (lookupKey fs "channel").bind decU8
      let source ← getOpt fs "source" decStr
      let format ← getOpt fs "format" decStr
      let media_width ← getOpt fs "media_width" decU32
      let media_height ← getOpt fs "media_height" decU32
      pure ⟨channel, source, format, media_width, media_height⟩
  | _ => none

@[simp] theorem encodeArtworkFormatRequest_isNull (p : ArtworkFormatRequest) :
    (encodeArtworkFormatRequest p).isNull = false := rfl

@[simp] theorem decodeArtworkFormatRequest_enc (p : ArtworkFormatRequest) :
    decodeArtworkFormatRequest (encodeArtworkFormatRequest p) = some p := by
  obtain ⟨ch, so, fo, mw, mh⟩ := p
  cases so <;> cases fo <;> cases mw <;> cases mh <;>
    simp [encodeArtworkFormatRequest, decodeArtworkFormatRequest, getOpt, optField]

/-- Stream format request payload. -/
structure StreamRequestFormat where
  player : Option PlayerFormatRequest
  artwork : Option ArtworkFormatRequest
  deriving DecidableEq

def encodeStreamRequestFormat (p : StreamRequestFormat) : Json :=
  .obj (optField "player" p.player encodePlayerFormatRequest
       (optField "artwork" p.artwork encodeArtworkFormatRequest []))

def decodeStreamRequestFormat : Json → Option StreamRequestFormat
  | .obj fs => do
      let player ← getOpt fs "player" decodePlayerFormatRequest
      let artwork ← getOpt fs "artwork" decodeArtworkFormatRequest
      pure ⟨player, artwork⟩
  | _ => none

@[simp] theorem decodeStreamRequestFormat_enc (p : StreamRequestFormat) :
    decodeStreamRequestFormat (encodeStreamRequestFormat p) = some p := by
  obtain ⟨pl, aw⟩ := p
  cases pl <;> cases aw <;>
    simp [encodeStreamRequestFormat, decodeStreamRequestFormat, getOpt, optField]

@[simp] theorem encodePlaybackState_isNull (r : PlaybackState) :
    (encodePlaybackState r).isNull = false := by cases r <;> rfl

/-- Group update payload. -/
structure GroupUpdate where
  playback_state : Option PlaybackState
  group_id : Option String
  group_name : Option String
  deriving DecidableEq

def encodeGroupUpdate (p : GroupUpdate) : Json :=
  .obj (optField "playback_state" p.playback_state encodePlaybackState
       (optField "group_id" p.group_id encStr
       (optField "group_name" p.group_name encStr [])))

def decodeGroupUpdate : Json → Option GroupUpdate
  | .obj fs => do
      let playback_state ← getOpt fs "playback_state" decodePlaybackState
      let group_id ← getOpt fs "group_id" decStr
      let group_name ← getOpt fs "group_name" decStr
      pure ⟨playback_state, group_id, group_name⟩
  | _ => none

@[simp] theorem decodeGroupUpdate_enc (p : GroupUpdate) :
    decodeGroupUpdate (encodeGroupUpdate p) = some p := by
  obtain ⟨ps, gi, gn⟩ := p
  cases ps <;> cases gi <;> cases gn <;>
    simp [encodeGroupUpdate, decodeGroupUpdate, getOpt, optField]

/-- Client goodbye payload. -/
structure ClientGoodbye where
  reason : GoodbyeReason
  deriving DecidableEq

def encodeClientGoodbye (p : ClientGoodbye) : Json :=
  .obj [("reason", encodeGoodbyeReason p.reason)]

def decodeClientGoodbye : Json → Option ClientGoodbye
  | .obj fs => do
      let reason ← (lookupKey fs "reason").bind decodeGoodbyeReason
      pure ⟨reason⟩
  | _ => none

@[simp] theorem decodeClientGoodbye_enc (p : ClientGoodbye) :
    decodeClientGoodbye (encodeClientGoodbye p) = some p := by
  obtain ⟨rs⟩ := p
  simp [encodeClientGoodbye, decodeClientGoodbye]

/-! ### Message envelope (`#[serde(tag = "type", content = "payload")]`) -/

/-- Top-level protocol message envelope. -/
inductive Message where
  | clientHello (payload : ClientHello)
  | serverHello (payload : ServerHello)
  | clientTime (payload : ClientTime)
  | serverTime (payload : ServerTime)
  | clientState (payload : ClientState)
  | serverState (payload : ServerState)
  | serverCommand (payload : ServerCommand)
  | clientCommand (payload : ClientCommand)
  | streamStart (payload : StreamStart)
  | streamEnd (payload : StreamEnd)
  | streamClear (payload : StreamClear)
  | streamRequestFormat (payload : StreamRequestFormat)
  | groupUpdate (payload : GroupUpdate)
  | clientGoodbye (payload : ClientGoodbye)
  deriving DecidableEq

/-- Normative discriminator string of each variant (the serde `rename`
attributes). -/
def Message.tag : Message → String
  | .clientHello _ => "client/hello"
  | .serverHello _ => "server/hello"
  | .clientTime _ => "client/time"
  | .serverTime _ => "server/time"
  | .clientState _ => "client/state"
  | .serverState _ => "server/state"
  | .serverCommand _ => "server/command"
  | .clientCommand _ => "client/command"
  | .streamStart _ => "stream/start"
  | .streamEnd _ => "stream/end"
  | .streamClear _ => "stream/clear"
  | .streamRequestFormat _ => "stream/request-format"
  | .groupUpdate _ => "group/update"
  | .clientGoodbye _ => "client/goodbye"

/-- Encode a message as the adjacently tagged record
`{"type": <tag>, "payload": <payload>}`. -/
def Message.encode : Message → Json
  | .clientHello p => .obj [("type", .str "client/hello"), ("payload", encodeClientHello p)]
  | .serverHello p => .obj [("type", .str "server/hello"), ("payload", encodeServerHello p)]
  | .clientTime p => .obj [("type", .str "client/time"), ("payload", encodeClientTime p)]
  | .serverTime p => .obj [("type", .str "server/time"), ("payload", encodeServerTime p)]
  | .clientState p => .obj [("type", .str "client/state"), ("payload", encodeClientState p)]
  | .serverState p => .obj [("type", .str "server/state"), ("payload", encodeServerState p)]
  | .serverCommand p => .obj [("type", .str "server/command"), ("payload", encodeServerCommand p)]
  | .clientCommand p => .obj [("type", .str "client/command"), ("payload", encodeClientCommand p)]
  | .streamStart p => .obj [("type", .str "stream/start"), ("payload", encodeStreamStart p)]
  | .streamEnd p => .obj [("type", .str "stream/end"), ("payload", encodeStreamEnd p)]
  | .streamClear p => .obj [("type", .str "stream/clear"), ("payload", encodeStreamClear p)]
  | .streamRequestFormat p =>
      .obj [("type", .str "stream/request-format"), ("payload", encodeStreamRequestFormat p)]
  | .groupUpdate p => .obj [("type", .str "group/update"), ("payload", encodeGroupUpdate p)]
  | .clientGoodbye p => .obj [("type", .str "client/goodbye"), ("payload", encodeClientGoodbye p)]

/-- Decode a message from the tagged-record wire form; an unknown
discriminator is a recoverable decode failure (`none`). -/
def Message.decode (j : Json) : Option Message :=
  match j with
  | .obj fs =>
    match lookupKey fs "type", lookupKey fs "payload" with
    | some (.str t), some p =>
      if t = "client/hello" then (decodeClientHello p).map .clientHello
      else if t = "server/hello" then (decodeServerHello p).map .serverHello
      else if t = "client/time" then (decodeClientTime p).map .clientTime
      else if t = "server/time" then (decodeServerTime p).map .serverTime
      else if t = "client/state" then (decodeClientState p).map .clientState
      else if t = "server/state" then (decodeServerState p).map .serverState
      else if t = "server/command" then (decodeServerCommand p).map .serverCommand
      else if t = "client/command" then (decodeClientCommand p).map .clientCommand
      else if t = "stream/start" then (decodeStreamStart p).map .streamStart
      else if t = "stream/end" then (decodeStreamEnd p).map .streamEnd
      else if t = "stream/clear" then (decodeStreamClear p).map .streamClear
      else if t = "stream/request-format" then
        (decodeStreamRequestFormat p).map .streamRequestFormat
      else if t = "group/update" then (decodeGroupUpdate p).map .groupUpdate
      else if t = "client/goodbye" then (decodeClientGoodbye p).map .clientGoodbye
      else none
    | _, _ => none
  | _ => none

@[simp] theorem Message.decode_encode (m : Message) : Message.decode (Message.encode m) = some m := by
  cases m <;> simp [Message.encode, Message.decode]

/-- The `type` field of an encoded message. -/
def typeFieldOf (j : Json) : Option Json :=
  match j with
  | .obj fs => lookupKey fs "type"
  | _ => none

/-- The field list of the `payload` object of an encoded message. -/
def payloadFieldsOf (j : Json) : List (String × Json) :=
  match j with
  | .obj fs =>
    match lookupKey fs "payload" with
    | some (.obj pfs) => pfs
    | _ => []
  | _ => []

/-- Whether a JSON object field list carries a given key. -/
def hasKey (fs : List (String × Json)) (k : String) : Bool :=
  (lookupKey fs k).isSome

/-- Spec-side table: the optional top-level payload fields of each
variant, paired with whether the field is present in the given message.
Fields marked `false` must be omitted from the encoding. -/
def optPresence : Message → List (String × Bool)
  | .clientHello p =>
      [("device_info", p.device_info.isSome),
       ("player@v1_support", p.player_v1_support.isSome),
       ("artwork@v1_support", p.artwork_v1_support.isSome),
       ("visualizer@v1_support", p.visualizer_v1_support.isSome)]
  | .serverHello _ => []
  | .clientTime _ => []
  | .serverTime _ => []
  | .clientState p => [("player", p.player.isSome)]
  | .serverState p =>
      [("metadata", p.metadata.isSome), ("controller", p.controller.isSome)]
  | .serverCommand p => [("player", p.player.isSome)]
  | .clientCommand p => [("controller", p.controller.isSome)]
  | .streamStart p =>
      [("player", p.player.isSome), ("artwork", p.artwork.isSome),
       ("visualizer", p.visualizer.isSome)]
  | .streamEnd p => [("roles", p.roles.isSome)]
  | .streamClear p => [("roles", p.roles.isSome)]
  | .streamRequestFormat p =>
      [("player", p.player.isSome), ("artwork", p.artwork.isSome)]
  | .groupUpdate p =>
      [("playback_state", p.playback_state.isSome), ("group_id", p.group_id.isSome),
       ("group_name", p.group_name.isSome)]
  | .clientGoodbye _ => []

@[simp] theorem hasKey_optField_self (k : String) (o : Option α) (f : α → Json)
    (rest : List (String × Json)) (h : lookupKey rest k = none) :
    hasKey (optField k o f rest) k = o.isSome := by
  cases o <;> simp [hasKey, optField, h]

@[simp] theorem hasKey_optField_of_ne (key k : String) (o : Option α) (f : α → Json)
    (rest : List (String × Json)) (h : ¬ k = key) :
    hasKey (optField k o f rest) key = hasKey rest key := by
  cases o <;> simp [hasKey, optField, h]

@[simp] theorem hasKey_cons (k key : String) (v : Json) (rest : List (String × Json)) :
    hasKey ((k, v) :: rest) key = (decide (k = key) || hasKey rest key) := by
  by_cases h : k = key <;> simp [hasKey, h]

theorem Message.optional_field_presence (m : Message) (k : String) (b : Bool)
    (hmem : (k, b) ∈ optPresence m) :
    hasKey (payloadFieldsOf (Message.encode m)) k = b := by
  cases m with
  | clientHello p =>
    simp only [optPresence, List.mem_cons, List.not_mem_nil, or_false,
      Prod.mk.injEq] at hmem
    rcases hmem with ⟨rfl, rfl⟩ | ⟨rfl, rfl⟩ | ⟨rfl, rfl⟩ | ⟨rfl, rfl⟩ <;>
      simp [Message.encode, payloadFieldsOf, encodeClientHello]
  | serverHello p => exact absurd hmem (List.not_mem_nil _)
  | clientTime p => exact absurd hmem (List.not_mem_nil _)
  | serverTime p => exact absurd hmem (List.not_mem_nil _)
  | clientState p =>
    simp only [optPresence, List.mem_cons, List.not_mem_nil, or_false,
      Prod.mk.injEq] at hmem
    rcases hmem with ⟨rfl, rfl⟩
    simp [Message.encode, payloadFieldsOf, encodeClientState]
  | serverState p =>
    simp only [optPresence, List.mem_cons, List.not_mem_nil, or_false,
      Prod.mk.injEq] at hmem
    rcases hmem with ⟨rfl, rfl⟩ | ⟨rfl, rfl⟩ <;>
      simp [Message.encode, payloadFieldsOf, encodeServerState]
  | serverCommand p =>
    simp only [optPresence, List.mem_cons, List.not_mem_nil, or_false,
      Prod.mk.injEq] at hmem
    rcases hmem with ⟨rfl, rfl⟩
    simp [Message.encode, payloadFieldsOf, encodeServerCommand]
  | clientCommand p =>
    simp only [optPresence, List.mem_cons, List.not_mem_nil, or_false,
      Prod.mk.injEq] at hmem
    rcases hmem with ⟨rfl, rfl⟩
    simp [Message.encode, payloadFieldsOf, encodeClientCommand]
  | streamStart p =>
    simp only [optPresence, List.mem_cons, List.not_mem_nil, or_false,
      Prod.mk.injEq] at hmem
    rcases hmem with ⟨rfl, rfl⟩ | ⟨rfl, rfl⟩ | ⟨rfl, rfl⟩ <;>
      simp [Message.encode, payloadFieldsOf, encodeStreamStart]
  | streamEnd p =>
    simp only [optPresence, List.mem_cons, List.not_mem_nil, or_false,
      Prod.mk.injEq] at hmem
    rcases hmem with ⟨rfl, rfl⟩
    simp [Message.encode, payloadFieldsOf, encodeStreamEnd]
  | streamClear p =>
    simp only [optPresence, List.mem_cons, List.not_mem_nil, or_false,
      Prod.mk.injEq] at hmem
    rcases hmem with ⟨rfl, rfl⟩
    simp [Message.encode, payloadFieldsOf, encodeStreamClear]
  | streamRequestFormat p =>
    simp only [optPresence, List.mem_cons, List.not_mem_nil, or_false,
      Prod.mk.injEq] at hmem
    rcases hmem with ⟨rfl, rfl⟩ | ⟨rfl, rfl⟩ <;>
      simp [Message.encode, payloadFieldsOf, encodeStreamRequestFormat]
  | groupUpdate p =>
    simp only [optPresence, List.mem_cons, List.not_mem_nil, or_false,
      Prod.mk.injEq] at hmem
    rcases hmem with ⟨rfl, rfl⟩ | ⟨rfl, rfl⟩ | ⟨rfl, rfl⟩ <;>
      simp [Message.encode, payloadFieldsOf, encodeGroupUpdate]
  | clientGoodbye p => exact absurd hmem (List.not_mem_nil _)

/-! ### Clock synchronization (`src/sync/clock.rs`)

`Instant` readings are `Nat` microseconds; `SystemTime` (Unix wallclock)
readings are `Int` microseconds.  The two `now` readings taken inside
`update` (`SystemTime::now()` at the epoch assignment and
`Instant::now()` for `last_update`) are passed as explicit arguments. -/

/-- Clock synchronization quality (`SyncQuality`). -/
inductive SyncQuality where
  | good
  | degraded
  | lost
  deriving DecidableEq

/-- Clock synchronization state (`ClockSync`). -/
structure ClockSync where
  rtt_micros : Option Int
  server_loop_start_unix : Option Int
  last_update : Option Nat
  synced : Bool
  deriving DecidableEq

/-- `ClockSync::new()`. -/
def ClockSync.new : ClockSync :=
  { rtt_micros := none, server_loop_start_unix := none, last_update := none, synced := false }

/-- `ClockSync::update(t1, t2, t3, t4)`.  `now_unix` is the wallclock
microsecond reading `SystemTime::now()` would produce at the epoch
assignment; `now_inst` the `Instant::now()` reading stored into
`last_update`. -/
def ClockSync.update (s : ClockSync) (t1 t2 t3 t4 : Int) (now_unix : Int) (now_inst : Nat) :
    ClockSync :=
  let rtt := (t4 - t1) - (t3 - t2)
  let s1 := { s with rtt_micros := some rtt }
  if rtt > 100000 then
    s1
  else
    let s2 :=
      if ¬ s1.synced then
        { s1 with server_loop_start_unix := some (now_unix - t2), synced := true }
      else s1
    { s2 with last_update := some now_inst }

/-- `ClockSync::rtt_micros()`. -/
def ClockSync.rtt_query (s : ClockSync) : Option Int := s.rtt_micros

/-- `ClockSync::quality()`. -/
def ClockSync.quality (s : ClockSync) : SyncQuality :=
  match s.rtt_micros with
  | some rtt => if rtt < 50000 then .good else if rtt < 100000 then .degraded else .lost
  | none => .lost

/-- `ClockSync::is_stale()` at the given `Instant::now()` reading. -/
def ClockSync.is_stale (s : ClockSync) (now_inst : Nat) : Bool :=
  match s.last_update with
  | some last => now_inst - last > 5000000
  | none => true

/-- One time-sync exchange: the four timestamps plus the two `now`
readings `update` samples while processing it. -/
structure Sample where
  t1 : Int
  t2 : Int
  t3 : Int
  t4 : Int
  now_unix : Int
  now_inst : Nat
  deriving DecidableEq

/-- Round-trip time of a sample, `(t4 - t1) - (t3 - t2)`. -/
def Sample.rtt (x : Sample) : Int := (x.t4 - x.t1) - (x.t3 - x.t2)

/-- A sample is accepted when `update` does not discard it
(`rtt ≤ 100 000 µs`). -/
def Sample.accepted (x : Sample) : Bool := x.rtt ≤ 100000

/-- Feed one sample to a `ClockSync`. -/
def stepSample (s : ClockSync) (x : Sample) : ClockSync :=
  s.update x.t1 x.t2 x.t3 x.t4 x.now_unix x.now_inst

/-- Feed a whole session's worth of samples to a fresh `ClockSync`. -/
def runSamples (xs : List Sample) : ClockSync :=
  xs.foldl stepSample ClockSync.new

/-- First sample of a session that `update` accepts. -/
def firstAccepted (xs : List Sample) : Option Sample :=
  xs.find? Sample.accepted

/-! ### Binary frame demultiplexer (`src/protocol/client.rs`)

Frames are byte lists; a byte is a `Nat` below 256. -/

namespace binary_types

/-- Player audio chunk type ID. -/
def PLAYER_AUDIO : Nat := 0x04
/-- Artwork channel 0 type ID. -/
def ARTWORK_CHANNEL_0 : Nat := 0x08
/-- Artwork channel 3 type ID. -/
def ARTWORK_CHANNEL_3 : Nat := 0x0B
/-- Visualizer data type ID. -/
def VISUALIZER : Nat := 0x10

/-- `binary_types::is_artwork`: type IDs 8–11. -/
def is_artwork (type_id : Nat) : Bool :=
  ARTWORK_CHANNEL_0 ≤ type_id && type_id ≤ ARTWORK_CHANNEL_3

/-- `binary_types::artwork_channel`: channel 0–3 from the type ID. -/
def artwork_channel (type_id : Nat) : Option Nat :=
  if is_artwork type_id then some (type_id - ARTWORK_CHANNEL_0) else none

end binary_types

/-- Big-endian unsigned value of a byte list. -/
def beNat (bs : List Nat) : Nat :=
  bs.foldl (fun acc b => acc * 256 + b) 0

/-- `i64::from_be_bytes` of an 8-byte big-endian list (two's
complement). -/
def beI64 (bs : List Nat) : Int :=
  let n := beNat bs
  if n < 9223372036854775808 then (n : Int) else (n : Int) - 18446744073709551616

/-- Audio chunk (binary type 4). -/
structure AudioChunk where
  timestamp : Int
  data : List Nat
  deriving DecidableEq

/-- `AudioChunk::from_bytes`. -/
def AudioChunk.from_bytes (frame : List Nat) : Except String AudioChunk :=
  if frame.length < 9 then
    .error "Audio chunk too short"
  else if frame.getD 0 0 ≠ binary_types.PLAYER_AUDIO then
    .error "Invalid audio chunk type"
  else
    .ok { timestamp := beI64 ((frame.drop 1).take 8), data := frame.drop 9 }

/-- Artwork chunk (binary types 8–11). -/
structure ArtworkChunk where
  channel : Nat
  timestamp : Int
  data : List Nat
  deriving DecidableEq

/-- `ArtworkChunk::from_bytes`. -/
def ArtworkChunk.from_bytes (frame : List Nat) : Except String ArtworkChunk :=
  if frame.length < 9 then
    .error "Artwork chunk too short"
  else
    match binary_types.artwork_channel (frame.getD 0 0) with
    | none => .error "Invalid artwork chunk type"
    | some channel =>
      .ok { channel := channel, timestamp := beI64 ((frame.drop 1).take 8),
            data := frame.drop 9 }

/-- Visualizer chunk (binary type 16). -/
structure VisualizerChunk where
  timestamp : Int
  data : List Nat
  deriving DecidableEq

/-- `VisualizerChunk::from_bytes`. -/
def VisualizerChunk.from_bytes (frame : List Nat) : Except String VisualizerChunk :=
  if frame.length < 9 then
    .error "Visualizer chunk too short"
  else if frame.getD 0 0 ≠ binary_types.VISUALIZER then
    .error "Invalid visualizer chunk type"
  else
    .ok { timestamp := beI64 ((frame.drop 1).take 8), data := frame.drop 9 }

/-- Any binary frame from the server (`BinaryFrame`). -/
inductive BinaryFrame where
  | audio (chunk : AudioChunk)
  | artwork (chunk : ArtworkChunk)
  | visualizer (chunk : VisualizerChunk)
  | unknown (type_id : Nat) (data : List Nat)
  deriving DecidableEq

/-- `BinaryFrame::from_bytes`. -/
def BinaryFrame.from_bytes (frame : List Nat) : Except String BinaryFrame :=
  if frame.isEmpty then
    .error "Empty binary frame"
  else
    let type_id := frame.getD 0 0
    if type_id = binary_types.PLAYER_AUDIO then
      (AudioChunk.from_bytes frame).map .audio
    else if binary_types.is_artwork type_id then
      (ArtworkChunk.from_bytes frame).map .artwork
    else if type_id = binary_types.VISUALIZER then
      (VisualizerChunk.from_bytes frame).map .visualizer
    else
      .ok (.unknown type_id (frame.drop 1))

/-- Whether a type ID is one of the known, typed binary frame kinds. -/
def knownTypeId (type_id : Nat) : Bool :=
  type_id = binary_types.PLAYER_AUDIO || binary_types.is_artwork type_id ||
    type_id = binary_types.VISUALIZER

/-! ### Per-chunk deadline computation (`examples/player.rs`, audio
branch of the select loop)

`Instant`s are `Nat` microseconds.  The fallback branch samples
`Instant::now()` when initializing `next_play_time` and the min-lead
clamp samples it again; the two readings are the explicit arguments
`now_fb` and `now_clamp`. -/

/-- Default of `env_u64("SS_PLAY_MIN_LEAD_MS", 200)`. -/
def min_lead_ms_default : Nat := 200

/-- Default of `env_u64("SS_PLAY_START_BUFFER_MS", 500)`. -/
def start_buffer_ms_default : Nat := 500

/-- One pass of the deadline computation for a decoded chunk: from the
clock-sync translation result (`server_to_local_instant`), the mutable
`next_play_time`, and the configuration, produce the clamped `play_at`
deadline and the new `next_play_time`. -/
def scheduleChunk (sync_at : Option Nat) (next_play : Option Nat)
    (now_fb now_clamp start_buffer_ms min_lead_ms dur : Nat) : Nat × Option Nat :=
  let (play_at, next_play') :=
    match sync_at with
    | some inst => (inst, next_play)
    | none =>
      let np :=
        match next_play with
        | none => now_fb + start_buffer_ms * 1000
        | some p => p
      (np, some (np + dur))
  let min_lead := min_lead_ms * 1000
  let play_at' := if play_at ≤ now_clamp + min_lead then now_clamp + min_lead else play_at
  (play_at', next_play')

/-! ### Handshake wait loop (`ProtocolClient::connect`)

The loop that waits for `server/hello` after `client/hello` was sent,
modelled over the list of inbound WebSocket events. -/

/-- An inbound WebSocket event as seen by the connect loop. -/
inductive WsEvent where
  | text (j : Json)
  | binary (bs : List Nat)
  | ping
  | pong
  | close
  | wsError (e : String)

/-- Result of the connect handshake (`Result<ProtocolClient, Error>`):
either the accepted `server/hello` (the session proceeds to idle), or
the `Error` variant `connect` returns. -/
inductive ConnectResult where
  | connected (sh : ServerHello)
  | protocolError (e : String)
  | connectionError (e : String)
  | wsFailed (e : String)
  deriving DecidableEq

/-- The `loop` in `ProtocolClient::connect` that waits for
`server/hello`.  Text frames are parsed with the message codec; a parse
failure or a non-`server/hello` message is a protocol error; ping/pong
and non-text frames are skipped; close or stream end are connection
errors. -/
def awaitServerHello : List WsEvent → ConnectResult
  | [] => .connectionError "No server hello received"
  | ev :: rest =>
    match ev with
    | .text j =>
      match Message.decode j with
      | none => .protocolError "Failed to parse server message"
      | some (.serverHello sh) => .connected sh
      | some _ => .protocolError "Expected server/hello"
    | .ping => awaitServerHello rest
    | .pong => awaitServerHello rest
    | .close => .connectionError "Server closed connection"
    | .binary _ => awaitServerHello rest
    | .wsError e => .wsFailed e

/-- `ProtocolClient::connect` after the WebSocket is established and
`client/hello` is sent: the outcome is decided entirely by the wait
loop; the client's `hello` (in particular its `supported_roles`) is not
consulted when accepting the server's reply. -/
def connectHandshake (_hello : ClientHello) (events : List WsEvent) : ConnectResult :=
  awaitServerHello events

/-! ### Clock lemmas -/

theorem stepSample_of_synced (s : ClockSync) (x : Sample) (h : s.synced = true) :
    (stepSample s x).server_loop_start_unix = s.server_loop_start_unix
    ∧ (stepSample s x).synced = true := by
  simp only [stepSample, ClockSync.update, h]
  split <;> simp

theorem foldl_stepSample_synced (xs : List Sample) : ∀ s : ClockSync, s.synced = true →
    (xs.foldl stepSample s).server_loop_start_unix = s.server_loop_start_unix
    ∧ (xs.foldl stepSample s).synced = true := by
  induction xs with
  | nil => intro s h; exact ⟨rfl, h⟩
  | cons x t ih =>
    intro s h
    obtain ⟨h1, h2⟩ := stepSample_of_synced s x h
    obtain ⟨h3, h4⟩ := ih (stepSample s x) h2
    exact ⟨by simpa [h1] using h3, h4⟩

theorem stepSample_accepted_of_new (s : ClockSync) (x : Sample)
    (hs : s.synced = false) (hx : x.accepted = true) :
    stepSample s x = { s with rtt_micros := some x.rtt,
                              server_loop_start_unix := some (x.now_unix - x.t2),
                              last_update := some x.now_inst, synced := true } := by
  have hr : ¬ (x.t4 - x.t1 - (x.t3 - x.t2) > 100000) := by
    simp only [Sample.accepted, Sample.rtt, decide_eq_true_eq] at hx
    omega
  obtain ⟨rm, sl, lu, sy⟩ := s
  simp only at hs
  subst hs
  simp [stepSample, ClockSync.update, Sample.rtt, hr]

theorem stepSample_rejected (s : ClockSync) (x : Sample) (hx : x.accepted = false) :
    stepSample s x = { s with rtt_micros := some x.rtt } := by
  have hr : x.t4 - x.t1 - (x.t3 - x.t2) > 100000 := by
    simp only [Sample.accepted, Sample.rtt, decide_eq_false_iff_not, not_le] at hx
    omega
  simp [stepSample, ClockSync.update, Sample.rtt, hr]

theorem foldl_stepSample_fresh (xs : List Sample) : ∀ s : ClockSync,
    s.synced = false → s.server_loop_start_unix = none →
    (xs.foldl stepSample s).server_loop_start_unix
      = (firstAccepted xs).map (fun x => x.now_unix - x.t2)
    ∧ (xs.foldl stepSample s).synced = (firstAccepted xs).isSome := by
  induction xs with
  | nil => intro s hs hn; simp [firstAccepted, hs, hn]
  | cons x t ih =>
    intro s hs hn
    by_cases hx : x.accepted = true
    · have hstep := stepSample_accepted_of_new s x hs hx
      have hsynced : (stepSample s x).synced = true := by rw [hstep]
      obtain ⟨h1, h2⟩ := foldl_stepSample_synced t (stepSample s x) hsynced
      have hfa : firstAccepted (x :: t) = some x := by
        simp [firstAccepted, List.find?_cons_of_pos, hx]
      constructor
      · rw [List.foldl_cons, h1, hstep, hfa]; rfl
      · rw [List.foldl_cons, h2, hfa]; rfl
    · have hx' : x.accepted = false := by simpa using hx
      have hstep := stepSample_rejected s x hx'
      have hfa : firstAccepted (x :: t) = firstAccepted t := by
        simp [firstAccepted, List.find?_cons_of_neg, hx']
      have hs2 : (stepSample s x).synced = false := by rw [hstep]; exact hs
      have hn2 : (stepSample s x).server_loop_start_unix = none := by rw [hstep]; exact hn
      obtain ⟨h1, h2⟩ := ih (stepSample s x) hs2 hn2
      exact ⟨by simpa [hfa] using h1, by simpa [hfa] using h2⟩

/-! ### Claims C1–C4 -/

/-- C1: for every `ClockSync` session (a sequence of `update` calls
starting from `ClockSync::new`), `server_loop_start_unix` is assigned
exactly once — on the first sample whose RTT is not discarded, to
`now_wall_µs − t2` — and is never changed by any later update, accepted
or discarded: the final value equals the first accepted sample's
`now_unix − t2` (and is `none` if no sample was accepted), `synced`
records exactly whether some sample was accepted, and once `synced` is
set no update modifies `server_loop_start_unix`. -/
theorem C1_epoch_pinning (xs : List Sample) :
    ((runSamples xs).server_loop_start_unix
        = (firstAccepted xs).map (fun x => x.now_unix - x.t2))
    ∧ ((runSamples xs).synced = (firstAccepted xs).isSome)
    ∧ (∀ (s : ClockSync) (x : Sample), s.synced = true →
        (stepSample s x).server_loop_start_unix = s.server_loop_start_unix) := by
  obtain ⟨h1, h2⟩ := foldl_stepSample_fresh xs ClockSync.new rfl rfl
  exact ⟨h1, h2, fun s x h => (stepSample_of_synced s x h).1⟩

/-- C1 witness: on the session `[good sample, later sample]` the epoch is
pinned by the first sample and unchanged by the second; a synced state's
epoch survives a further update. -/
theorem C1_epoch_pinning_witness :
    (runSamples [⟨1000000, 500000, 500010, 1000050, 1500000, 0⟩,
                 ⟨2000000, 600000, 600010, 2000050, 2500000, 7⟩]).server_loop_start_unix
      = some 1000000
    ∧ (stepSample { rtt_micros := some 40, server_loop_start_unix := some 1000000,
                    last_update := some 0, synced := true }
        ⟨2000000, 600000, 600010, 2000050, 2500000, 7⟩).server_loop_start_unix
      = some 1000000 := by
  constructor
  · exact ((C1_epoch_pinning _).1).trans (by decide)
  · exact (C1_epoch_pinning []).2.2 _ _ rfl

/-- C2: every `update` call whose computed RTT is at most 100 000 µs
stores exactly `(t4 − t1) − (t3 − t2)` as the RTT, and the test vector
`(1000000, 500000, 500010, 1000050)` yields `Some 40`. -/
theorem C2_rtt_computation (s : ClockSync) (t1 t2 t3 t4 now_unix : Int) (now_inst : Nat)
    (h : (t4 - t1) - (t3 - t2) ≤ 100000) :
    (s.update t1 t2 t3 t4 now_unix now_inst).rtt_query = some ((t4 - t1) - (t3 - t2))
    ∧ (∀ (nu : Int) (ni : Nat),
        (ClockSync.new.update 1000000 500000 500010 1000050 nu ni).rtt_query = some 40) := by
  constructor
  · simp only [ClockSync.update, ClockSync.rtt_query]
    split_ifs <;> rfl
  · intro nu ni
    simp only [ClockSync.update, ClockSync.rtt_query, ClockSync.new]
    norm_num

/-- C2 witness: the test vector's RTT is within bounds and is stored. -/
theorem C2_rtt_computation_witness :
    ((1000050 - 1000000 : Int) - (500010 - 500000) ≤ 100000)
    ∧ (ClockSync.new.update 1000000 500000 500010 1000050 0 0).rtt_query = some 40 := by
  refine ⟨by norm_num, ?_⟩
  exact ((C2_rtt_computation ClockSync.new 1000000 500000 500010 1000050 0 0
    (by norm_num)).1).trans (by norm_num)

/-- C3 counterexample: a discarded high-RTT sample does NOT leave the
`ClockSync` state unchanged — `rtt_micros` is overwritten with the
discarded sample's RTT before the discard check, so a fresh state fed
`(0, 0, 0, 150000)` differs from `ClockSync::new`. -/
theorem C3_counterexample :
    ClockSync.new.update 0 0 0 150000 0 0 ≠ ClockSync.new
    ∧ (ClockSync.new.update 0 0 0 150000 0 0).rtt_micros = some 150000 := by
  constructor
  · decide
  · decide

/-- C3 (amended): a sample whose RTT exceeds 100 000 µs is discarded
silently except that `rtt_micros` is overwritten with the discarded RTT;
`server_loop_start_unix`, `last_update` and `synced` are unchanged, and
on a fresh `ClockSync` such a sample leaves `synced = false` and
`quality() = Lost`. -/
theorem C3_high_rtt_discard (s : ClockSync) (t1 t2 t3 t4 now_unix : Int) (now_inst : Nat)
    (h : (t4 - t1) - (t3 - t2) > 100000) :
    s.update t1 t2 t3 t4 now_unix now_inst
      = { s with rtt_micros := some ((t4 - t1) - (t3 - t2)) }
    ∧ (ClockSync.new.update t1 t2 t3 t4 now_unix now_inst).synced = false
    ∧ (ClockSync.new.update t1 t2 t3 t4 now_unix now_inst).quality = .lost := by
  refine ⟨by simp [ClockSync.update, h], ?_, ?_⟩
  · simp [ClockSync.update, ClockSync.new, h]
  · simp only [ClockSync.update, ClockSync.new, ClockSync.quality, if_pos h]
    rw [if_neg (by omega), if_neg (by omega)]

/-- C3 witness: amended behavior evaluated on the spec's scenario
(RTT = 150 000 µs on a fresh state). -/
theorem C3_high_rtt_discard_witness :
    ((150000 - 0 : Int) - (0 - 0) > 100000)
    ∧ ClockSync.new.update 0 0 0 150000 0 0
        = { ClockSync.new with rtt_micros := some 150000 }
    ∧ (ClockSync.new.update 0 0 0 150000 0 0).synced = false
    ∧ (ClockSync.new.update 0 0 0 150000 0 0).quality = .lost := by
  have h := C3_high_rtt_discard ClockSync.new 0 0 0 150000 0 0 (by norm_num)
  exact ⟨by norm_num, h.1.trans (by decide), h.2.1, h.2.2⟩

/-- C4 counterexample: `quality()` ignores staleness — after one good
sample at instant 0, at instant 6 000 001 µs (more than 5 s with no
accepted sample, `is_stale` is true) `quality()` still reports `Good`,
not `Lost` as the claim requires. -/
theorem C4_counterexample :
    (stepSample ClockSync.new ⟨1000000, 500000, 500010, 1000040, 0, 0⟩).is_stale 6000001 = true
    ∧ (stepSample ClockSync.new ⟨1000000, 500000, 500010, 1000040, 0, 0⟩).quality
        = SyncQuality.good := by
  constructor
  · decide
  · decide

/-- C4 (amended): `quality()` is a function of the stored RTT alone:
`Good` exactly when an RTT below 50 000 µs is stored, `Degraded` exactly
when the stored RTT is in `[50 000, 100 000)`, `Lost` exactly when no
RTT is stored or the stored RTT is at least 100 000 µs; staleness (no
accepted sample in more than 5 s, reported separately by `is_stale`)
does not affect `quality()`. -/
theorem C4_quality_classification (s : ClockSync) :
    (s.quality = .good ↔ ∃ rtt, s.rtt_micros = some rtt ∧ rtt < 50000)
    ∧ (s.quality = .degraded ↔ ∃ rtt, s.rtt_micros = some rtt ∧ 50000 ≤ rtt ∧ rtt < 100000)
    ∧ (s.quality = .lost ↔ s.rtt_micros = none
        ∨ ∃ rtt, s.rtt_micros = some rtt ∧ 100000 ≤ rtt)
    ∧ (∀ s' : ClockSync, s'.rtt_micros = s.rtt_micros → s'.quality = s.quality) := by
  refine ⟨?_, ?_, ?_, fun s' h => by simp [ClockSync.quality, h]⟩ <;>
    rcases h : s.rtt_micros with _ | rtt
  · simp [ClockSync.quality, h]
  · by_cases h1 : rtt < 50000 <;> by_cases h2 : rtt < 100000 <;>
      simp [ClockSync.quality, h, h1, h2] <;> omega
  · simp [ClockSync.quality, h]
  · by_cases h1 : rtt < 50000 <;> by_cases h2 : rtt < 100000 <;>
      simp [ClockSync.quality, h, h1, h2] <;> omega
  · simp [ClockSync.quality, h]
  · by_cases h1 : rtt < 50000 <;> by_cases h2 : rtt < 100000 <;>
      simp [ClockSync.quality, h, h1, h2] <;> omega

/-- C4 witness: the classification evaluated at a stored RTT of
75 000 µs (degraded) and at a stale-but-good state. -/
theorem C4_quality_classification_witness :
    ({ rtt_micros := some 75000, server_loop_start_unix := some 0,
       last_update := some 0, synced := true } : ClockSync).quality = .degraded
    ∧ ({ rtt_micros := some 40, server_loop_start_unix := some 0,
         last_update := some 0, synced := true } : ClockSync).quality
      = ({ rtt_micros := some 40, server_loop_start_unix := some 0,
           last_update := some 987654321, synced := true } : ClockSync).quality := by
  constructor
  · exact (C4_quality_classification _).2.1.mpr ⟨75000, rfl, by norm_num, by norm_num⟩
  · exact (C4_quality_classification _).2.2.2 _ rfl

/-! ### Claims C5, C6, C10 — binary frames -/

@[simp] theorem exceptMap_error (f : α → β) (e : String) :
    (Except.error e : Except String α).map f = .error e := rfl

@[simp] theorem exceptMap_ok (f : α → β) (a : α) :
    (Except.ok a : Except String α).map f = .ok (f a) := rfl

theorem is_artwork_of_ne (t : Nat) (h4 : ¬ t = 4) (h16 : ¬ t = 16)
    (hk : knownTypeId t = false) : binary_types.is_artwork t = false := by
  simp only [knownTypeId, binary_types.PLAYER_AUDIO, binary_types.VISUALIZER,
    Bool.or_eq_false_iff, decide_eq_false_iff_not] at hk
  exact hk.1.2

theorem from_bytes_cons_audio (rest : List Nat)
    (hlen : ¬ (4 :: rest).length < 9) :
    BinaryFrame.from_bytes (4 :: rest)
      = .ok (.audio ⟨beI64 (rest.take 8), rest.drop 8⟩) := by
  have hl : ¬ (rest.length + 1 < 9) := by simp at hlen ⊢; omega
  simp [BinaryFrame.from_bytes, AudioChunk.from_bytes,
    binary_types.PLAYER_AUDIO, hl]

theorem from_bytes_cons_artwork (b : Nat) (rest : List Nat)
    (ha : binary_types.is_artwork b = true)
    (hlen : ¬ (b :: rest).length < 9) :
    BinaryFrame.from_bytes (b :: rest)
      = .ok (.artwork ⟨b - 8, beI64 (rest.take 8), rest.drop 8⟩) := by
  have h4 : ¬ b = 4 := by
    intro e
    rw [e] at ha
    simp [binary_types.is_artwork, binary_types.ARTWORK_CHANNEL_0,
      binary_types.ARTWORK_CHANNEL_3] at ha
  have hl : ¬ (rest.length + 1 < 9) := by simp at hlen ⊢; omega
  simp [BinaryFrame.from_bytes, ArtworkChunk.from_bytes,
    binary_types.PLAYER_AUDIO, binary_types.artwork_channel,
    binary_types.ARTWORK_CHANNEL_0, h4, ha, hl]

theorem from_bytes_cons_visualizer (rest : List Nat)
    (hlen : ¬ (16 :: rest).length < 9) :
    BinaryFrame.from_bytes (16 :: rest)
      = .ok (.visualizer ⟨beI64 (rest.take 8), rest.drop 8⟩) := by
  have hl : ¬ (rest.length + 1 < 9) := by simp at hlen ⊢; omega
  simp [BinaryFrame.from_bytes, VisualizerChunk.from_bytes,
    binary_types.PLAYER_AUDIO, binary_types.VISUALIZER,
    binary_types.is_artwork, binary_types.ARTWORK_CHANNEL_0,
    binary_types.ARTWORK_CHANNEL_3, hl]

theorem from_bytes_cons_unknown (b : Nat) (rest : List Nat)
    (hk : knownTypeId b = false) :
    BinaryFrame.from_bytes (b :: rest) = .ok (.unknown b rest) := by
  have h4 : ¬ b = 4 := by
    simp only [knownTypeId, binary_types.PLAYER_AUDIO, binary_types.VISUALIZER,
      Bool.or_eq_false_iff, decide_eq_false_iff_not] at hk
    exact hk.1.1
  have h16 : ¬ b = 16 := by
    simp only [knownTypeId, binary_types.PLAYER_AUDIO, binary_types.VISUALIZER,
      Bool.or_eq_false_iff, decide_eq_false_iff_not] at hk
    exact hk.2
  have ha := is_artwork_of_ne b h4 h16 hk
  simp [BinaryFrame.from_bytes, binary_types.PLAYER_AUDIO,
    binary_types.VISUALIZER, h4, h16, ha]

theorem from_bytes_cons_short_known (b : Nat) (rest : List Nat)
    (hk : knownTypeId b = true) (hlen : (b :: rest).length < 9) :
    ∃ e, BinaryFrame.from_bytes (b :: rest) = .error e := by
  have hl : rest.length + 1 < 9 := by simpa using hlen
  simp only [knownTypeId, Bool.or_eq_true, decide_eq_true_eq,
    binary_types.PLAYER_AUDIO, binary_types.VISUALIZER] at hk
  rcases hk with (h | h) | h
  · subst h
    refine ⟨"Audio chunk too short", ?_⟩
    simp [BinaryFrame.from_bytes, AudioChunk.from_bytes,
      binary_types.PLAYER_AUDIO, hl]
  · have h4 : ¬ b = 4 := by
      intro e
      rw [e] at h
      simp [binary_types.is_artwork, binary_types.ARTWORK_CHANNEL_0,
        binary_types.ARTWORK_CHANNEL_3] at h
    refine ⟨"Artwork chunk too short", ?_⟩
    simp [BinaryFrame.from_bytes, ArtworkChunk.from_bytes,
      binary_types.PLAYER_AUDIO, h4, h, hl]
  · subst h
    refine ⟨"Visualizer chunk too short", ?_⟩
    simp [BinaryFrame.from_bytes, VisualizerChunk.from_bytes,
      binary_types.PLAYER_AUDIO, binary_types.VISUALIZER,
      binary_types.is_artwork, binary_types.ARTWORK_CHANNEL_0,
      binary_types.ARTWORK_CHANNEL_3, hl]

/-- C5 counterexample: a one-byte frame with an unknown type ID parses
successfully as `Unknown`, although it is shorter than 9 bytes — short
frames are not rejected regardless of the frame's type-ID byte. -/
theorem C5_counterexample :
    BinaryFrame.from_bytes [0] = .ok (.unknown 0 [])
    ∧ ([0] : List Nat).length < 9 := by
  constructor
  · rfl
  · decide

/-- C5 (amended): a frame shorter than 9 bytes yields a decode failure
when it is empty or its type-ID byte is one of the known IDs
(0x04, 0x08–0x0B, 0x10); a short frame with any other leading byte
parses successfully as `Unknown`. -/
theorem C5_min_frame_length (frame : List Nat) (hlen : frame.length < 9) :
    (frame = [] → ∃ e, BinaryFrame.from_bytes frame = .error e)
    ∧ (knownTypeId (frame.getD 0 0) = true →
        ∃ e, BinaryFrame.from_bytes frame = .error e)
    ∧ (frame ≠ [] → knownTypeId (frame.getD 0 0) = false →
        BinaryFrame.from_bytes frame
          = .ok (.unknown (frame.getD 0 0) (frame.drop 1))) := by
  cases frame with
  | nil =>
    refine ⟨fun _ => ⟨"Empty binary frame", rfl⟩, fun hk => ?_, fun hne _ => absurd rfl hne⟩
    exact absurd hk (by decide)
  | cons b rest =>
    refine ⟨fun h => absurd h (by simp), fun hk => ?_, fun _ hk => ?_⟩
    · rw [List.getD_cons_zero] at hk
      exact from_bytes_cons_short_known b rest hk hlen
    · rw [List.getD_cons_zero] at hk
      rw [List.getD_cons_zero, List.drop_one, List.tail_cons]
      exact from_bytes_cons_unknown b rest hk

/-- C5 witness: the amended behavior on the empty frame and on a
1-byte frame with the audio type ID. -/
theorem C5_min_frame_length_witness :
    (∃ e, BinaryFrame.from_bytes ([] : List Nat) = .error e)
    ∧ (∃ e, BinaryFrame.from_bytes [4] = .error e) := by
  refine ⟨(C5_min_frame_length [] (by decide)).1 rfl, ?_⟩
  exact (C5_min_frame_length [4] (by decide)).2.1 (by decide)

/-- C6: for every binary frame of length at least 9,
`BinaryFrame::from_bytes` maps type ID `0x04` to an Audio chunk,
`0x08..=0x0B` to an Artwork chunk with `channel = type_id − 8`, `0x10`
to a Visualizer chunk, and any other ID to `Unknown` preserving the
type ID; in the typed cases the parsed timestamp is the big-endian
signed 64-bit integer of bytes 1..9 and the payload is bytes 9 onward. -/
theorem C6_demux_dispatch (frame : List Nat) (hlen : 9 ≤ frame.length) :
    (frame.getD 0 0 = 4 →
      BinaryFrame.from_bytes frame
        = .ok (.audio ⟨beI64 ((frame.drop 1).take 8), frame.drop 9⟩))
    ∧ (binary_types.is_artwork (frame.getD 0 0) = true →
      BinaryFrame.from_bytes frame
        = .ok (.artwork ⟨frame.getD 0 0 - 8, beI64 ((frame.drop 1).take 8),
                          frame.drop 9⟩))
    ∧ (frame.getD 0 0 = 16 →
      BinaryFrame.from_bytes frame
        = .ok (.visualizer ⟨beI64 ((frame.drop 1).take 8), frame.drop 9⟩))
    ∧ (knownTypeId (frame.getD 0 0) = false →
      BinaryFrame.from_bytes frame
        = .ok (.unknown (frame.getD 0 0) (frame.drop 1))) := by
  cases frame with
  | nil => simp at hlen
  | cons b rest =>
    have hlen' : ¬ (b :: rest).length < 9 := by omega
    have hdrop : (b :: rest).drop 9 = rest.drop 8 := rfl
    have htake : ((b :: rest).drop 1).take 8 = rest.take 8 := rfl
    refine ⟨fun h4 => ?_, fun ha => ?_, fun h16 => ?_, fun hk => ?_⟩
    · rw [List.getD_cons_zero] at h4
      subst h4
      rw [hdrop, htake]
      exact from_bytes_cons_audio rest hlen'
    · rw [List.getD_cons_zero] at ha
      rw [List.getD_cons_zero, hdrop, htake]
      exact from_bytes_cons_artwork b rest ha hlen'
    · rw [List.getD_cons_zero] at h16
      subst h16
      rw [hdrop, htake]
      exact from_bytes_cons_visualizer rest hlen'
    · rw [List.getD_cons_zero] at hk
      rw [List.getD_cons_zero, List.drop_one, List.tail_cons]
      exact from_bytes_cons_unknown b rest hk

/-- C6 witness: the spec's scenarios — an audio frame with timestamp
1 000 000 and payload `DE AD BE EF`, and an artwork-channel-1 clear
frame (empty payload). -/
theorem C6_demux_dispatch_witness :
    BinaryFrame.from_bytes
        [0x04, 0x00, 0x00, 0x00, 0x00, 0x00, 0x0F, 0x42, 0x40, 0xDE, 0xAD, 0xBE, 0xEF]
      = .ok (.audio ⟨1000000, [0xDE, 0xAD, 0xBE, 0xEF]⟩)
    ∧ BinaryFrame.from_bytes [0x09, 0, 0, 0, 0, 0, 0, 0, 0]
      = .ok (.artwork ⟨1, 0, []⟩) := by
  constructor
  · exact ((C6_demux_dispatch _ (by decide)).1 (by decide)).trans (by rfl)
  · exact ((C6_demux_dispatch _ (by decide)).2.1 (by decide)).trans (by rfl)

/-- C10: every non-empty binary frame whose first byte is none of
0x04, 0x08–0x0B, 0x10 parses successfully (whatever its length, so in
particular lengths 1 through 8) as `Unknown` with `type_id = frame[0]`
and `data = frame[1..]` — the timestamp bytes, when present, stay inside
`data` — while the empty frame is rejected. -/
theorem C10_unknown_frame_parsing (frame : List Nat) (hne : frame ≠ [])
    (hk : knownTypeId (frame.getD 0 0) = false) :
    BinaryFrame.from_bytes frame
      = .ok (.unknown (frame.getD 0 0) (frame.drop 1))
    ∧ (∃ e, BinaryFrame.from_bytes ([] : List Nat) = .error e) := by
  cases frame with
  | nil => exact absurd rfl hne
  | cons b rest =>
    rw [List.getD_cons_zero] at hk
    refine ⟨?_, ⟨"Empty binary frame", rfl⟩⟩
    rw [List.getD_cons_zero, List.drop_one, List.tail_cons]
    exact from_bytes_cons_unknown b rest hk

/-- C10 witness: a 3-byte unknown-type frame (shorter than 9 bytes)
parses as `Unknown` with the remaining bytes as data. -/
theorem C10_unknown_frame_parsing_witness :
    BinaryFrame.from_bytes [5, 1, 2] = .ok (.unknown 5 [1, 2])
    ∧ (∃ e, BinaryFrame.from_bytes ([] : List Nat) = .error e) := by
  have h := C10_unknown_frame_parsing [5, 1, 2] (by decide) (by decide)
  exact ⟨h.1.trans (by rfl), h.2⟩

/-! ### Claim C7 — message codec round-trip -/

/-- C7: for every protocol message variant `m`, decoding the encoding of
`m` yields `m` (absent optional fields are omitted on encode and decode
back to the absent option, so the round trip is exact); the encoding is
a tagged record whose `type` field is the variant's normative
discriminator string (per `Message.tag`); and every absent top-level
optional payload field is omitted from the encoding while every present
one appears. -/
theorem C7_codec_roundtrip (m : Message) :
    Message.decode (Message.encode m) = some m
    ∧ typeFieldOf (Message.encode m) = some (.str (Message.tag m))
    ∧ (∀ k b, (k, b) ∈ optPresence m →
        hasKey (payloadFieldsOf (Message.encode m)) k = b) := by
  refine ⟨Message.decode_encode m, ?_, fun k b h => Message.optional_field_presence m k b h⟩
  cases m <;> rfl

/-- C7 witness: the round trip, tag and omission evaluated on a
`client/state` message with the optional `player` block absent. -/
theorem C7_codec_roundtrip_witness :
    Message.decode (Message.encode (.clientState ⟨none⟩)) = some (.clientState ⟨none⟩)
    ∧ typeFieldOf (Message.encode (.clientState ⟨none⟩)) = some (.str "client/state")
    ∧ hasKey (payloadFieldsOf (Message.encode (.clientState ⟨none⟩))) "player" = false := by
  have h := C7_codec_roundtrip (.clientState ⟨none⟩)
  exact ⟨h.1, h.2.1, h.2.2 "player" false (by decide)⟩

/-! ### Claim C8 — deadline computation -/

theorem clamp_eq_max (a c : Nat) : (if c ≤ a then a else c) = max a c := by
  rcases Nat.le_total c a with h | h
  · rw [if_pos h, Nat.max_eq_left h]
  · rcases Nat.eq_or_lt_of_le h with h' | h'
    · rw [h', if_pos le_rfl, Nat.max_self]
    · rw [if_neg (by omega), Nat.max_eq_right h]

/-- C8: for every decoded chunk, when the clock is not yet synced
(`server_to_local_instant` returns nothing) the deadline comes from
continuous scheduling — the first such deadline is
`now + start_buffer_ms` and each subsequent one advances by the chunk's
duration — and in every case, synced or not, the enqueued deadline is
the candidate clamped from below by `now + min_lead` (a deadline at or
below `now + min_lead` is replaced by it); the default `min_lead_ms` is
200. -/
theorem C8_deadline_computation (sync_at next_play : Option Nat)
    (now_fb now_clamp start_buffer_ms min_lead_ms dur : Nat) :
    (sync_at = none → next_play = none →
      scheduleChunk sync_at next_play now_fb now_clamp start_buffer_ms min_lead_ms dur
        = (max (now_clamp + min_lead_ms * 1000) (now_fb + start_buffer_ms * 1000),
           some (now_fb + start_buffer_ms * 1000 + dur)))
    ∧ (∀ p, sync_at = none → next_play = some p →
      scheduleChunk sync_at next_play now_fb now_clamp start_buffer_ms min_lead_ms dur
        = (max (now_clamp + min_lead_ms * 1000) p, some (p + dur)))
    ∧ (∀ t, sync_at = some t →
      scheduleChunk sync_at next_play now_fb now_clamp start_buffer_ms min_lead_ms dur
        = (max (now_clamp + min_lead_ms * 1000) t, next_play))
    ∧ min_lead_ms_default = 200 := by
  refine ⟨?_, ?_, ?_, rfl⟩
  · rintro rfl rfl
    simp only [scheduleChunk]
    rw [clamp_eq_max]
  · rintro p rfl rfl
    simp only [scheduleChunk]
    rw [clamp_eq_max]
  · rintro t rfl
    simp only [scheduleChunk]
    rw [clamp_eq_max]

/-- C8 witness: a first unsynced chunk is scheduled at
`now + start_buffer` (500 ms) and a synced chunk with a past
translation is clamped to `now + min_lead` (200 ms). -/
theorem C8_deadline_computation_witness :
    scheduleChunk none none 1000 1200 500 200 20000 = (501000, some 521000)
    ∧ scheduleChunk (some 150000) (some 999) 1000 1200 500 200 20000
        = (201200, some 999) := by
  constructor
  · exact ((C8_deadline_computation none none 1000 1200 500 200 20000).1
      rfl rfl).trans (by decide)
  · exact ((C8_deadline_computation (some 150000) (some 999) 1000 1200 500 200
      20000).2.2.1 150000 rfl).trans (by decide)

/-! ### Claim C9 — handshake validation -/

/-- Demo client hello: the player example's hello shape, supporting only
`player@v1`. -/
def helloDemo : ClientHello :=
  ⟨"client-1", "demo", ⟨1, by norm_num⟩, ["player@v1"], none, none, none, none⟩

/-- A server hello whose `active_roles` are a subset of the demo
client's `supported_roles`. -/
def serverHelloSubset : ServerHello :=
  ⟨"srv-1", "server", ⟨1, by norm_num⟩, ["player@v1"], .playback⟩

/-- A server hello whose `active_roles` are NOT a subset of the demo
client's `supported_roles`. -/
def serverHelloForeign : ServerHello :=
  ⟨"srv-1", "server", ⟨1, by norm_num⟩, ["controller@v1"], .playback⟩

/-- C9 counterexample: `connect` performs no role-subset validation — a
`server/hello` whose `active_roles` (`["controller@v1"]`) are not a
subset of the client's `supported_roles` (`["player@v1"]`) is accepted
and the session proceeds, contradicting the claim that such a hello is
not accepted. -/
theorem C9_counterexample :
    connectHandshake helloDemo
        [.text (Message.encode (.serverHello serverHelloForeign))]
      = .connected serverHelloForeign
    ∧ serverHelloForeign.active_roles = ["controller@v1"]
    ∧ helloDemo.supported_roles = ["player@v1"]
    ∧ "controller@v1" ∉ helloDemo.supported_roles := by
  refine ⟨?_, rfl, rfl, by decide⟩
  simp [connectHandshake, awaitServerHello]

/-- C9 (amended): while awaiting the server's reply to `client/hello`,
receiving any `server/hello` — its `active_roles` are not validated
against `supported_roles` — moves the client to Idle (connect
succeeds), receiving any other protocol message is a protocol violation
that fails the connect with a protocol error, and an unparseable text
frame is likewise a protocol error. -/
theorem C9_handshake_validation (hello : ClientHello) (j : Json) (rest : List WsEvent) :
    (∀ sh, Message.decode j = some (.serverHello sh) →
      connectHandshake hello (.text j :: rest) = .connected sh)
    ∧ (∀ m, Message.decode j = some m → (∀ sh, m ≠ .serverHello sh) →
      connectHandshake hello (.text j :: rest) = .protocolError "Expected server/hello")
    ∧ (Message.decode j = none →
      connectHandshake hello (.text j :: rest)
        = .protocolError "Failed to parse server message") := by
  refine ⟨?_, ?_, ?_⟩
  · intro sh h
    simp [connectHandshake, awaitServerHello, h]
  · intro m h hne
    cases m <;> first
      | exact absurd rfl (hne _)
      | simp [connectHandshake, awaitServerHello, h]
  · intro h
    simp [connectHandshake, awaitServerHello, h]

/-- C9 witness: a subset-valid `server/hello` is accepted, a
`client/time` message in its place is a protocol error. -/
theorem C9_handshake_validation_witness :
    connectHandshake helloDemo
        [.text (Message.encode (.serverHello serverHelloSubset))]
      = .connected serverHelloSubset
    ∧ connectHandshake helloDemo
        [.text (Message.encode (.clientTime ⟨⟨0, by norm_num⟩⟩))]
      = .protocolError "Expected server/hello" := by
  constructor
  · exact (C9_handshake_validation helloDemo _ []).1 serverHelloSubset
      (Message.decode_encode _)
  · exact (C9_handshake_validation helloDemo _ []).2.1 _
      (Message.decode_encode _) (fun sh => by simp)

end Sendspin
